import Mathlib

/-
  Verification development for the TRACE decoder (Src/traceDecoder.c).

  The decoder consumes raw octets (ETMv3.5 protocol) or 32-bit address pairs
  (MTB protocol), updates a shadow CPU-state snapshot plus a change-bit record,
  and signals the consumer callback when a completed message is available.

  Shallow embedding conventions:
  * uint8_t inputs are Nat (bounded by hypotheses where the bound matters);
  * 32-bit fields are Nat with stores truncated by `&&& 0xFFFFFFFF` where a
    C store could overflow 32 bits; the 64-bit timestamp accumulator is
    truncated by `&&& 0xFFFFFFFFFFFFFFFF` in the one branch that shifts by a
    variable amount;
  * `~mask` on a 32-bit (resp. 64-bit) target is `0xFFFFFFFF ^^^ mask`
    (resp. `0xFFFFFFFFFFFFFFFF ^^^ mask`), matching C integer conversion of
    the complemented int to the unsigned target type;
  * the report callback is a pure diagnostic sink and is dropped;
  * the message callback `cb(d)` is modelled by the returned pump event plus
    the explicit firing conditions of the two pump actions; the list pumps
    below record, for each callback invocation, the value of `rxedISYNC` at
    the moment of the invocation.
-/

/-- Protocols supported by the decoder (traceDecoder.h, via the spec). -/
inductive TRACEprotocol
  | TRACE_PROT_ETM35
  | TRACE_PROT_MTB
deriving DecidableEq, Repr

/-- States of the ETM35 protocol state machine. -/
inductive TRACEprotoState
  | TRACE_UNSYNCED
  | TRACE_WAIT_ISYNC
  | TRACE_IDLE
  | TRACE_COLLECT_BA_STD_FORMAT
  | TRACE_COLLECT_BA_ALT_FORMAT
  | TRACE_COLLECT_EXCEPTION
  | TRACE_GET_VMID
  | TRACE_GET_TSTAMP
  | TRACE_GET_CYCLECOUNT
  | TRACE_GET_CONTEXTID
  | TRACE_GET_CONTEXTBYTE
  | TRACE_GET_INFOBYTE
  | TRACE_GET_IADDRESS
  | TRACE_GET_ICYCLECOUNT
deriving DecidableEq, Repr

/-- Address modes of the traced CPU. -/
inductive TRACEaddrMode
  | TRACE_ADDRMODE_ARM
  | TRACE_ADDRMODE_THUMB
  | TRACE_ADDRMODE_JAZELLE
deriving DecidableEq, Repr

/-- Events from pumping one unit through the decoder (traceDecoder.c, enum
TRACEDecoderPumpEvent). -/
inductive TRACEDecoderPumpEvent
  | TRACE_EV_NONE
  | TRACE_EV_UNSYNCED
  | TRACE_EV_SYNCED
  | TRACE_EV_ERROR
  | TRACE_EV_MSG_RXED
deriving DecidableEq, Repr

/-- Modelled from the spec: the numeric values of `enum TRACEchanges` come from
traceDecoder.h, which is not among the sources; the spec lists the change
kinds in this order (one bit each). -/
def EV_CH_ADDRESS : Nat := 0

def EV_CH_EXCEPTION : Nat := 1

def EV_CH_CANCELLED : Nat := 2

def EV_CH_ALTISA : Nat := 3

def EV_CH_HYP : Nat := 4

def EV_CH_SECURE : Nat := 5

def EV_CH_JAZELLE : Nat := 6

def EV_CH_THUMB : Nat := 7

def EV_CH_REASON : Nat := 8

def EV_CH_ISLSIP : Nat := 9

def EV_CH_CONTEXTID : Nat := 10

def EV_CH_VMID : Nat := 11

def EV_CH_TSTAMP : Nat := 12

def EV_CH_CYCLECOUNT : Nat := 13

def EV_CH_TRACESTART : Nat := 14

def EV_CH_LINEAR : Nat := 15

def EV_CH_ENATOMS : Nat := 16

def EV_CH_WATOMS : Nat := 17

def EV_CH_EX_ENTRY : Nat := 18

def EV_CH_EX_EXIT : Nat := 19

def EV_CH_TRIGGER : Nat := 20

def EV_CH_CLOCKSPEED : Nat := 21

def EV_CH_RESUME : Nat := 22

/-- The decoder's public view of the traced processor (struct TRACECPUState).
Modelled from the spec: field widths (32-bit addresses and accumulators,
64-bit timestamp, cumulative `instCount`) follow the spec's data model since
the header is not among the sources. Zero/false defaults mirror the
`memset(..., 0, ...)` of TRACEDecoderInit. -/
structure TRACECPUState where
  addr : Nat := 0
  nextAddr : Nat := 0
  toAddr : Nat := 0
  addrMode : TRACEaddrMode := .TRACE_ADDRMODE_ARM
  thumb : Bool := false
  jazelle : Bool := false
  altISA : Bool := false
  nonSecure : Bool := false
  hyp : Bool := false
  contextID : Nat := 0
  vmid : Nat := 0
  ts : Nat := 0
  cycleCount : Nat := 0
  instCount : Nat := 0
  eatoms : Nat := 0
  natoms : Nat := 0
  watoms : Nat := 0
  disposition : Nat := 0
  exception : Nat := 0
  resume : Nat := 0
  reason : Nat := 0
  isLSiP : Bool := false
  changeRecord : Nat := 0
deriving DecidableEq, Repr

/-- The decoder instance (struct TRACEDecoder): configuration, transient
accumulators and the CPU-state snapshot.  `asyncCount` is the running count of
consecutive 0x00 bytes (the spec models it as an unbounded counter). -/
structure TRACEDecoder where
  p : TRACEprotoState := .TRACE_UNSYNCED
  asyncCount : Nat := 0
  addrConstruct : Nat := 0
  tsConstruct : Nat := 0
  cycleConstruct : Nat := 0
  contextConstruct : Nat := 0
  byteCount : Nat := 0
  contextBytes : Nat := 0
  rxedISYNC : Bool := false
  usingAltAddrEncode : Bool := false
  cycleAccurate : Bool := false
  dataOnlyMode : Bool := false
  protocol : TRACEprotocol := .TRACE_PROT_ETM35
  syncCount : Nat := 0
  lostSyncCount : Nat := 0
  cpu : TRACECPUState := {}
deriving DecidableEq, Repr

/-- `_stateChange`: record a change kind in the change bitmask
(`i->cpu.changeRecord |= (1 << c)`). -/
def _stateChange (i : TRACEDecoder) (c : Nat) : TRACEDecoder :=
  { i with cpu := { i.cpu with changeRecord := i.cpu.changeRecord ||| (1 <<< c) } }

/-- The `terminateAddrByte` label of `_ETM35DecoderPumpAction`: decide whether a
branch-address packet is complete and, if so, commit the address, possibly
extract legacy exception information (5-byte ARM form), or fall through to
exception collection.  `pending` is the `newState` value on entry to the label
(the branch-address collection state when the packet continues). -/
def terminateAddrByte (i : TRACEDecoder) (c : Nat) (C X : Bool)
    (pending : TRACEprotoState) : TRACEDecoder × TRACEDecoderPumpEvent :=
  if C = false ∨ i.byteCount = 5 then
    let i1 := { i with cpu := { i.cpu with addr := i.addrConstruct } }
    if i1.byteCount = 5 ∧ i1.cpu.addrMode = .TRACE_ADDRMODE_ARM ∧ C = true then
      -- legacy exception information in byte 5
      let i2 := { i1 with cpu := { i1.cpu with exception := (c >>> 4) &&& 0x07 } }
      let i3 := _stateChange i2 EV_CH_EXCEPTION
      let i4 := _stateChange i3 (if c &&& 0x40 ≠ 0 then EV_CH_CANCELLED else 0)
      ({ i4 with p := .TRACE_IDLE }, .TRACE_EV_MSG_RXED)
    else if C = false ∧ X = false then
      ({ i1 with p := .TRACE_IDLE }, .TRACE_EV_MSG_RXED)
    else
      -- exception information follows: collect it
      let i2 := { i1 with byteCount := 0, cpu := { i1.cpu with resume := 0 } }
      let i3 := _stateChange i2 EV_CH_EX_ENTRY
      ({ i3 with p := .TRACE_COLLECT_EXCEPTION }, .TRACE_EV_NONE)
  else
    ({ i with p := pending }, .TRACE_EV_NONE)

/-- The `TRACE_IDLE` case of `_ETM35DecoderPumpAction`: first-octet dispatch
over the ETM35 packet taxonomy, in source order. -/
def _ETM35Idle (i : TRACEDecoder) (c : Nat) : TRACEDecoder × TRACEDecoderPumpEvent :=
  if c &&& 1 ≠ 0 then
    -- branch packet: seed low-order address bits according to address mode
    let ac :=
      match i.cpu.addrMode with
      | .TRACE_ADDRMODE_ARM =>
          (i.addrConstruct &&& (0xFFFFFFFF ^^^ 0xFC)) ||| ((c &&& 0x7E) <<< 1)
      | .TRACE_ADDRMODE_THUMB =>
          (i.addrConstruct &&& (0xFFFFFFFF ^^^ 0x7F)) ||| (c &&& 0x7E)
      | .TRACE_ADDRMODE_JAZELLE =>
          (i.addrConstruct &&& (0xFFFFFFFF ^^^ 0x3F)) ||| ((c &&& 0x7E) >>> 1)
    let i1 := { i with addrConstruct := ac, byteCount := 1 }
    let i2 := _stateChange i1 EV_CH_ADDRESS
    let pending := if i2.usingAltAddrEncode then TRACEprotoState.TRACE_COLLECT_BA_ALT_FORMAT
                   else TRACEprotoState.TRACE_COLLECT_BA_STD_FORMAT
    terminateAddrByte i2 c (decide (c &&& 0x80 ≠ 0)) false pending
  else if c = 0 then
    -- A-Sync filler packet
    (i, .TRACE_EV_NONE)
  else if c = 0x04 then
    -- cycle-count packet
    ({ i with byteCount := 0, cycleConstruct := 0, p := .TRACE_GET_CYCLECOUNT }, .TRACE_EV_NONE)
  else if c = 0x08 then
    -- normal I-Sync
    let i1 := { i with byteCount := 0, contextConstruct := 0,
                       p := (if i.contextBytes ≠ 0 then TRACEprotoState.TRACE_GET_CONTEXTBYTE
                             else TRACEprotoState.TRACE_GET_INFOBYTE) }
    let i2 := if i1.rxedISYNC = false then
        { i1 with cpu := { i1.cpu with changeRecord := 0 }, rxedISYNC := true }
      else i1
    (i2, .TRACE_EV_NONE)
  else if c = 0x70 then
    -- I-Sync with cycle count
    ({ i with byteCount := 0, cycleConstruct := 0, p := .TRACE_GET_ICYCLECOUNT }, .TRACE_EV_NONE)
  else if c = 0x0C then
    -- trigger packet
    (_stateChange i EV_CH_TRIGGER, .TRACE_EV_MSG_RXED)
  else if c = 0x3C then
    -- VMID packet
    ({ i with p := .TRACE_GET_VMID }, .TRACE_EV_NONE)
  else if c &&& 0xFB = 0x42 then
    -- timestamp packet
    let i1 := if c &&& 0x04 ≠ 0 then _stateChange i EV_CH_CLOCKSPEED else i
    ({ i1 with byteCount := 0, p := .TRACE_GET_TSTAMP }, .TRACE_EV_NONE)
  else if c = 0x66 then
    -- ignore packet
    (i, .TRACE_EV_NONE)
  else if c = 0x6E then
    -- contextID packet
    ({ i with cpu := { i.cpu with contextID := 0 }, byteCount := 0,
              p := .TRACE_GET_CONTEXTID }, .TRACE_EV_NONE)
  else if c = 0x76 then
    -- exception exit packet
    (_stateChange i EV_CH_EX_EXIT, .TRACE_EV_MSG_RXED)
  else if c = 0x7E then
    -- exception entry packet (data-trace CPUs)
    (_stateChange i EV_CH_EX_ENTRY, .TRACE_EV_MSG_RXED)
  else if c &&& 0x81 = 0x80 then
    -- P-header packet
    if i.cycleAccurate = false then
      if c &&& 0x83 = 0x80 then
        -- Format-1 P-header
        let e := (c &&& 0x3C) >>> 2
        let n := if c &&& 0x40 ≠ 0 then 1 else 0
        let cpu := { i.cpu with eatoms := e, natoms := n,
                                instCount := i.cpu.instCount + (e + n),
                                disposition := (1 <<< e) - 1 }
        (_stateChange { i with cpu := cpu } EV_CH_ENATOMS, .TRACE_EV_MSG_RXED)
      else if c &&& 0xF3 = 0x82 then
        -- Format-2 P-header
        let e := (if c &&& 0x04 = 0 then 1 else 0) + (if c &&& 0x08 = 0 then 1 else 0)
        let cpu := { i.cpu with eatoms := e, natoms := 2 - e,
                                disposition := (if c &&& 0x08 = 0 then 1 else 0) |||
                                               ((if c &&& 0x04 = 0 then 1 else 0) <<< 1),
                                instCount := i.cpu.instCount + (e + (2 - e)) }
        (_stateChange { i with cpu := cpu } EV_CH_ENATOMS, .TRACE_EV_MSG_RXED)
      else
        -- unprocessed P-header: reported as error, no state change
        (i, .TRACE_EV_NONE)
    else
      if c = 0x80 then
        -- Format 0 cycle-accurate P-header
        let cpu := { i.cpu with watoms := 1, instCount := i.cpu.instCount + 1,
                                eatoms := 0, natoms := 0 }
        (_stateChange (_stateChange { i with cpu := cpu } EV_CH_ENATOMS) EV_CH_WATOMS,
         .TRACE_EV_MSG_RXED)
      else if c &&& 0xA3 = 0x80 then
        -- Format 1 cycle-accurate P-header
        let e := (c &&& 0x1C) >>> 2
        let n := if c &&& 0x40 ≠ 0 then 1 else 0
        let cpu := { i.cpu with eatoms := e, natoms := n, watoms := e + n,
                                instCount := i.cpu.instCount + (e + n),
                                disposition := (1 <<< e) - 1 }
        (_stateChange (_stateChange { i with cpu := cpu } EV_CH_ENATOMS) EV_CH_WATOMS,
         .TRACE_EV_MSG_RXED)
      else if c &&& 0xF3 = 0x82 then
        -- Format 2 cycle-accurate P-header
        let e := (if c &&& 0x04 ≠ 0 then 1 else 0) + (if c &&& 0x08 ≠ 0 then 1 else 0)
        let cpu := { i.cpu with eatoms := e, natoms := 2 - e, watoms := 1,
                                instCount := i.cpu.instCount + 1,
                                disposition := (if c &&& 0x08 ≠ 0 then 1 else 0) |||
                                               (if c &&& 0x04 ≠ 0 then 1 else 0) }
        (_stateChange (_stateChange { i with cpu := cpu } EV_CH_ENATOMS) EV_CH_WATOMS,
         .TRACE_EV_MSG_RXED)
      else if c &&& 0xA0 = 0xA0 then
        -- Format 3 cycle-accurate P-header
        let e := if c &&& 0x40 ≠ 0 then 1 else 0
        let w := (c &&& 0x1C) >>> 2
        let cpu := { i.cpu with eatoms := e, natoms := 0, watoms := w,
                                instCount := i.cpu.instCount + w, disposition := e }
        (_stateChange (_stateChange { i with cpu := cpu } EV_CH_ENATOMS) EV_CH_WATOMS,
         .TRACE_EV_MSG_RXED)
      else if c &&& 0xFB = 0x92 then
        -- Format 4 cycle-accurate P-header (no instCount update)
        let e := if c &&& 0x04 ≠ 0 then 1 else 0
        let n := if c &&& 0x04 = 0 then 1 else 0
        let cpu := { i.cpu with eatoms := e, natoms := n, watoms := 0, disposition := e }
        (_stateChange (_stateChange { i with cpu := cpu } EV_CH_ENATOMS) EV_CH_WATOMS,
         .TRACE_EV_MSG_RXED)
      else
        (i, .TRACE_EV_NONE)
  else
    (i, .TRACE_EV_NONE)

/-- The `TRACE_COLLECT_BA_ALT_FORMAT` case: fold one continuation byte of a
branch address, alternate encoding.  The continuation bit is 0x80; the mask of
collected bits is 0x7F while continuing and 0x3F on the final byte; the bit
offset is `7*byteCount + ofs` with `ofs` = 1 (ARM), 0 (THUMB) or -1 (JAZELLE).
Exception information follows iff there is no continuation and bit 6 is set. -/
def _ETM35CollectBAalt (i : TRACEDecoder) (c : Nat) : TRACEDecoder × TRACEDecoderPumpEvent :=
  let C : Bool := decide (c &&& 0x80 ≠ 0)
  let mask : Nat := if C then 0x7F else 0x3F
  let ofs : Int :=
    match i.cpu.addrMode with
    | .TRACE_ADDRMODE_ARM => 1
    | .TRACE_ADDRMODE_THUMB => 0
    | .TRACE_ADDRMODE_JAZELLE => -1
  let sh : Nat := (7 * (i.byteCount : Int) + ofs).toNat
  let i1 := { i with addrConstruct :=
      (i.addrConstruct &&& (0xFFFFFFFF ^^^ ((mask <<< sh) &&& 0xFFFFFFFF))) |||
      (((c &&& mask) <<< sh) &&& 0xFFFFFFFF) }
  let X : Bool := (!C) && decide (c &&& 0x40 ≠ 0)
  let i2 := { i1 with byteCount := i1.byteCount + 1 }
  terminateAddrByte i2 c C X i.p

/-- The `TRACE_COLLECT_BA_STD_FORMAT` case: fold one continuation byte of a
branch address, standard encoding.  The source masks `c` with the shifted
window (collecting "too many bits, but that is OK"); continuation is bit 7 for
bytes 1-4 and bit 6 for byte 5. -/
def _ETM35CollectBAstd (i : TRACEDecoder) (c : Nat) : TRACEDecoder × TRACEDecoderPumpEvent :=
  let ofs : Int :=
    match i.cpu.addrMode with
    | .TRACE_ADDRMODE_ARM => 1
    | .TRACE_ADDRMODE_THUMB => 0
    | .TRACE_ADDRMODE_JAZELLE => -1
  let sh : Nat := (7 * (i.byteCount : Int) + ofs).toNat
  let i1 := { i with addrConstruct :=
      (i.addrConstruct &&& (0xFFFFFFFF ^^^ ((0x7F <<< sh) &&& 0xFFFFFFFF))) |||
      (c &&& ((0x7F <<< sh) &&& 0xFFFFFFFF)) }
  let i2 := { i1 with byteCount := i1.byteCount + 1 }
  let C : Bool := if i2.byteCount < 5 then decide (c &&& 0x80 ≠ 0) else decide (c &&& 0x40 ≠ 0)
  let X : Bool := decide (i2.byteCount = 5) && C
  terminateAddrByte i2 c C X i.p

/-- The `TRACE_COLLECT_EXCEPTION` case: collect exception information bytes. -/
def _ETM35CollectException (i : TRACEDecoder) (c : Nat) : TRACEDecoder × TRACEDecoderPumpEvent :=
  if i.byteCount = 0 then
    let i1 := if decide (c &&& 1 ≠ 0) ≠ i.cpu.nonSecure then
        _stateChange { i with cpu := { i.cpu with nonSecure := decide (c &&& 1 ≠ 0) } }
          EV_CH_SECURE
      else i
    let i2 := { i1 with cpu := { i1.cpu with exception := (c >>> 1) &&& 0x0F } }
    let i3 := _stateChange i2 (if c &&& 0x20 ≠ 0 then EV_CH_CANCELLED else 0)
    let i4 := if i3.cpu.altISA ≠ decide (c &&& 0x40 ≠ 0) then
        _stateChange { i3 with cpu := { i3.cpu with altISA := decide (c &&& 0x40 ≠ 0) } }
          EV_CH_ALTISA
      else i3
    if c &&& 0x80 ≠ 0 then
      ({ i4 with byteCount := i4.byteCount + 1 }, .TRACE_EV_NONE)
    else
      ({ i4 with p := .TRACE_IDLE }, .TRACE_EV_MSG_RXED)
  else
    if c &&& 0x80 ≠ 0 then
      -- exception byte 1
      let i1 := { i with cpu := { i.cpu with exception := i.cpu.exception ||| ((c &&& 0x1F) <<< 4) } }
      let i2 := if i1.cpu.hyp ≠ decide (c &&& 0x20 ≠ 0) then
          _stateChange { i1 with cpu := { i1.cpu with hyp := decide (c &&& 0x20 ≠ 0) } } EV_CH_HYP
        else i1
      if c &&& 0x40 = 0 then
        ({ i2 with p := .TRACE_IDLE }, .TRACE_EV_MSG_RXED)
      else
        (i2, .TRACE_EV_NONE)
    else
      -- exception byte 2: always the last one
      let i1 := { i with cpu := { i.cpu with resume := c &&& 0x0F } }
      let i2 := if i1.cpu.resume ≠ 0 then _stateChange i1 EV_CH_RESUME else i1
      ({ i2 with p := .TRACE_IDLE }, .TRACE_EV_MSG_RXED)

/-- The `TRACE_GET_VMID` case: collect the virtual machine ID byte. -/
def _ETM35GetVMID (i : TRACEDecoder) (c : Nat) : TRACEDecoder × TRACEDecoderPumpEvent :=
  let i1 := if i.cpu.vmid ≠ c then
      _stateChange { i with cpu := { i.cpu with vmid := c } } EV_CH_VMID
    else i
  ({ i1 with p := .TRACE_IDLE }, .TRACE_EV_MSG_RXED)

/-- The `TRACE_GET_TSTAMP` case: collect one timestamp byte.  For byte indices
0..7 the source window is `0x7F << byteCount` (shift by `byteCount`, not by
`7*byteCount`); for byte index 8 the window is `0xFF << byteCount` with
`byteCount = 8`.  Terminates when the continuation bit is clear or after the
increment `byteCount` reaches 9, committing `cpu.ts` and raising TSTAMP. -/
def _ETM35GetTstamp (i : TRACEDecoder) (c : Nat) : TRACEDecoder × TRACEDecoderPumpEvent :=
  let ts' :=
    if i.byteCount < 8 then
      (i.tsConstruct &&& (0xFFFFFFFFFFFFFFFF ^^^ (0x7F <<< i.byteCount))) |||
      ((c &&& 0x7F) <<< i.byteCount)
    else
      (i.tsConstruct &&& (0xFFFFFFFFFFFFFFFF ^^^ ((0xFF <<< i.byteCount) &&& 0xFFFFFFFFFFFFFFFF))) |||
      (((c &&& 0xFF) <<< i.byteCount) &&& 0xFFFFFFFFFFFFFFFF)
  let i1 := { i with tsConstruct := ts', byteCount := i.byteCount + 1 }
  if c &&& 0x80 = 0 ∨ i1.byteCount = 9 then
    (_stateChange { i1 with cpu := { i1.cpu with ts := i1.tsConstruct }, p := .TRACE_IDLE }
       EV_CH_TSTAMP,
     .TRACE_EV_MSG_RXED)
  else
    (i1, .TRACE_EV_NONE)

/-- The `TRACE_GET_CYCLECOUNT` case: collect one cycle-count byte (7 bits at
offset `7*byteCount`, up to 5 bytes). -/
def _ETM35GetCyclecount (i : TRACEDecoder) (c : Nat) : TRACEDecoder × TRACEDecoderPumpEvent :=
  let cc :=
    (i.cycleConstruct &&& (0xFFFFFFFF ^^^ ((0x7F <<< (i.byteCount * 7)) &&& 0xFFFFFFFF))) |||
    (((c &&& 0x7F) <<< (i.byteCount * 7)) &&& 0xFFFFFFFF)
  let i1 := { i with cycleConstruct := cc, byteCount := i.byteCount + 1 }
  if c &&& 0x80 = 0 ∨ i1.byteCount = 5 then
    (_stateChange { i1 with cpu := { i1.cpu with cycleCount := i1.cycleConstruct },
                            p := .TRACE_IDLE }
       EV_CH_CYCLECOUNT,
     .TRACE_EV_MSG_RXED)
  else
    (i1, .TRACE_EV_NONE)

/-- The `TRACE_GET_CONTEXTID` case: accumulate `contextBytes` little-endian
bytes; on completion raise CONTEXTID if the value changed and emit. -/
def _ETM35GetContextID (i : TRACEDecoder) (c : Nat) : TRACEDecoder × TRACEDecoderPumpEvent :=
  let i1 := { i with contextConstruct := (i.contextConstruct + (c <<< (8 * i.byteCount))) &&& 0xFFFFFFFF,
                     byteCount := i.byteCount + 1 }
  if i1.byteCount = i1.contextBytes then
    let i2 := if i1.cpu.contextID ≠ i1.contextConstruct then
        _stateChange { i1 with cpu := { i1.cpu with contextID := i1.contextConstruct } }
          EV_CH_CONTEXTID
      else i1
    ({ i2 with p := .TRACE_IDLE }, .TRACE_EV_MSG_RXED)
  else
    (i1, .TRACE_EV_NONE)

/-- The `TRACE_WAIT_ISYNC` case: wait for a normal I-Sync header byte. -/
def _ETM35WaitISYNC (i : TRACEDecoder) (c : Nat) : TRACEDecoder × TRACEDecoderPumpEvent :=
  if c = 0x08 then
    let r := if i.rxedISYNC = false then
        ({ i with rxedISYNC := true }, TRACEDecoderPumpEvent.TRACE_EV_SYNCED)
      else (i, TRACEDecoderPumpEvent.TRACE_EV_NONE)
    ({ r.1 with byteCount := r.1.contextBytes, contextConstruct := 0,
                p := (if r.1.contextBytes ≠ 0 then TRACEprotoState.TRACE_GET_CONTEXTBYTE
                      else TRACEprotoState.TRACE_GET_INFOBYTE) },
     r.2)
  else
    (i, .TRACE_EV_NONE)

/-- The `TRACE_GET_CONTEXTBYTE` case: accumulate I-Sync context-ID bytes, then
proceed to the info byte. -/
def _ETM35GetContextByte (i : TRACEDecoder) (c : Nat) : TRACEDecoder × TRACEDecoderPumpEvent :=
  let i1 := { i with contextConstruct := (i.contextConstruct + (c <<< (8 * i.byteCount))) &&& 0xFFFFFFFF,
                     byteCount := i.byteCount + 1 }
  if i1.byteCount = i1.contextBytes then
    let i2 := if i1.cpu.contextID ≠ i1.contextConstruct then
        _stateChange { i1 with cpu := { i1.cpu with contextID := i1.contextConstruct } }
          EV_CH_CONTEXTID
      else i1
    ({ i2 with p := .TRACE_GET_INFOBYTE }, .TRACE_EV_NONE)
  else
    (i1, .TRACE_EV_NONE)

/-- First conditional update of the `TRACE_GET_INFOBYTE` case: LSiP flag
against the (oversized) literal mask 0x10000000, raising ISLSIP on change. -/
def _ETM35InfoLSiP (i : TRACEDecoder) (c : Nat) : TRACEDecoder :=
  if decide (c &&& 0x10000000 ≠ 0) ≠ i.cpu.isLSiP then
    _stateChange { i with cpu := { i.cpu with isLSiP := decide (c &&& 0x10000000 ≠ 0) } }
      EV_CH_ISLSIP
  else i

/-- Second conditional update of the `TRACE_GET_INFOBYTE` case: the 2-bit
reason code against the (oversized) literal mask 0x01100000, raising REASON on
change. -/
def _ETM35InfoReason (i : TRACEDecoder) (c : Nat) : TRACEDecoder :=
  if i.cpu.reason ≠ (c &&& 0x01100000) >>> 5 then
    _stateChange { i with cpu := { i.cpu with reason := (c &&& 0x01100000) >>> 5 } }
      EV_CH_REASON
  else i

/-- Third conditional update of the `TRACE_GET_INFOBYTE` case: jazelle flag
against the (oversized) literal mask 0x00010000, raising JAZELLE on change. -/
def _ETM35InfoJazelle (i : TRACEDecoder) (c : Nat) : TRACEDecoder :=
  if i.cpu.jazelle ≠ decide (c &&& 0x00010000 ≠ 0) then
    _stateChange { i with cpu := { i.cpu with jazelle := decide (c &&& 0x00010000 ≠ 0) } }
      EV_CH_JAZELLE
  else i

/-- Fourth conditional update of the `TRACE_GET_INFOBYTE` case: nonSecure flag
against the (oversized) literal mask 0x00001000, raising SECURE on change. -/
def _ETM35InfoNonSecure (i : TRACEDecoder) (c : Nat) : TRACEDecoder :=
  if i.cpu.nonSecure ≠ decide (c &&& 0x00001000 ≠ 0) then
    _stateChange { i with cpu := { i.cpu with nonSecure := decide (c &&& 0x00001000 ≠ 0) } }
      EV_CH_SECURE
  else i

/-- Fifth conditional update of the `TRACE_GET_INFOBYTE` case: altISA flag
against the (oversized) literal mask 0x00000100, raising ALTISA on change. -/
def _ETM35InfoAltISA (i : TRACEDecoder) (c : Nat) : TRACEDecoder :=
  if i.cpu.altISA ≠ decide (c &&& 0x00000100 ≠ 0) then
    _stateChange { i with cpu := { i.cpu with altISA := decide (c &&& 0x00000100 ≠ 0) } }
      EV_CH_ALTISA
  else i

/-- Sixth conditional update of the `TRACE_GET_INFOBYTE` case: hyp flag against
the (in-range) literal mask 0x00000010, raising HYP on change. -/
def _ETM35InfoHyp (i : TRACEDecoder) (c : Nat) : TRACEDecoder :=
  if i.cpu.hyp ≠ decide (c &&& 0x00000010 ≠ 0) then
    _stateChange { i with cpu := { i.cpu with hyp := decide (c &&& 0x00000010 ≠ 0) } }
      EV_CH_HYP
  else i

/-- The `TRACE_GET_INFOBYTE` case: decode the I-Sync information byte.  The
source tests the 8-bit input against the literal masks 0x10000000, 0x01100000,
0x00010000, 0x00001000, 0x00000100 and 0x00000010, preserved verbatim in the
six conditional updates above, applied in source order. -/
def _ETM35GetInfoByte (i : TRACEDecoder) (c : Nat) : TRACEDecoder × TRACEDecoderPumpEvent :=
  let i6 := _ETM35InfoHyp (_ETM35InfoAltISA (_ETM35InfoNonSecure (_ETM35InfoJazelle
              (_ETM35InfoReason (_ETM35InfoLSiP i c) c) c) c) c) c
  let i7 := { i6 with byteCount := 0 }
  if i7.dataOnlyMode then
    ({ i7 with p := .TRACE_IDLE }, .TRACE_EV_MSG_RXED)
  else
    ({ i7 with p := .TRACE_GET_IADDRESS }, .TRACE_EV_NONE)

/-- The `TRACE_GET_IADDRESS` case: accumulate 4 little-endian I-Sync address
bytes; on the 4th byte commit the address according to jazelle/thumb mode and
either return to IDLE (emitting) or go collect an LSiP branch address. -/
def _ETM35GetIAddress (i : TRACEDecoder) (c : Nat) : TRACEDecoder × TRACEDecoderPumpEvent :=
  let ac :=
    (i.addrConstruct &&& (0xFFFFFFFF ^^^ ((0xFF <<< (8 * i.byteCount)) &&& 0xFFFFFFFF))) |||
    ((c <<< (8 * i.byteCount)) &&& 0xFFFFFFFF)
  let i1 := { i with addrConstruct := ac, byteCount := i.byteCount + 1 }
  if i1.byteCount = 4 then
    let i2 := _stateChange i1 EV_CH_ADDRESS
    let i3 :=
      if i2.cpu.jazelle then
        { i2 with cpu := { i2.cpu with addrMode := .TRACE_ADDRMODE_JAZELLE,
                                       addr := i2.addrConstruct } }
      else
        let i2a := if (i2.addrConstruct &&& 1) ^^^ (if i2.cpu.thumb then 0 else 1) ≠ 0 then
            _stateChange { i2 with cpu := { i2.cpu with thumb := decide (c &&& 0x00000001 ≠ 0) } }
              EV_CH_THUMB
          else i2
        if i2a.addrConstruct &&& 1 ≠ 0 then
          let i2b := { i2a with addrConstruct := i2a.addrConstruct &&& (0xFFFFFFFF ^^^ 1) }
          { i2b with cpu := { i2b.cpu with addrMode := .TRACE_ADDRMODE_THUMB,
                                           addr := i2b.addrConstruct } }
        else
          { i2a with cpu := { i2a.cpu with addrMode := .TRACE_ADDRMODE_ARM,
                                           addr := i2a.addrConstruct &&& 0xFFFFFFFC } }
    if i3.cpu.isLSiP then
      ({ i3 with p := (if i3.usingAltAddrEncode then TRACEprotoState.TRACE_COLLECT_BA_ALT_FORMAT
                       else TRACEprotoState.TRACE_COLLECT_BA_STD_FORMAT) },
       .TRACE_EV_NONE)
    else
      ({ i3 with p := .TRACE_IDLE }, .TRACE_EV_MSG_RXED)
  else
    (i1, .TRACE_EV_NONE)

/-- The `TRACE_GET_ICYCLECOUNT` case: collect the cycle count on the front of
an I-Sync-with-cycle-count packet, then continue with the I-Sync body. -/
def _ETM35GetICyclecount (i : TRACEDecoder) (c : Nat) : TRACEDecoder × TRACEDecoderPumpEvent :=
  let cc :=
    (i.cycleConstruct &&& (0xFFFFFFFF ^^^ ((0x7F <<< (i.byteCount * 7)) &&& 0xFFFFFFFF))) |||
    (((c &&& 0x7F) <<< (i.byteCount * 7)) &&& 0xFFFFFFFF)
  let i1 := { i with cycleConstruct := cc, byteCount := i.byteCount + 1 }
  if c &&& 0x80 = 0 ∨ i1.byteCount = 5 then
    let i2 := { i1 with cpu := { i1.cpu with cycleCount := i1.cycleConstruct },
                        byteCount := i1.contextBytes, contextConstruct := 0 }
    let i3 := _stateChange i2 EV_CH_CYCLECOUNT
    ({ i3 with p := (if i3.contextBytes ≠ 0 then TRACEprotoState.TRACE_GET_CONTEXTBYTE
                     else TRACEprotoState.TRACE_GET_INFOBYTE) },
     .TRACE_EV_NONE)
  else
    (i1, .TRACE_EV_NONE)

/-- The per-state dispatch (the `switch (i->p)` of `_ETM35DecoderPumpAction`),
reached on every byte that does not complete an A-Sync sequence. -/
def _ETM35Dispatch (i : TRACEDecoder) (c : Nat) : TRACEDecoder × TRACEDecoderPumpEvent :=
  match i.p with
  | .TRACE_UNSYNCED => (i, .TRACE_EV_NONE)
  | .TRACE_IDLE => _ETM35Idle i c
  | .TRACE_COLLECT_BA_ALT_FORMAT => _ETM35CollectBAalt i c
  | .TRACE_COLLECT_BA_STD_FORMAT => _ETM35CollectBAstd i c
  | .TRACE_COLLECT_EXCEPTION => _ETM35CollectException i c
  | .TRACE_GET_VMID => _ETM35GetVMID i c
  | .TRACE_GET_TSTAMP => _ETM35GetTstamp i c
  | .TRACE_GET_CYCLECOUNT => _ETM35GetCyclecount i c
  | .TRACE_GET_CONTEXTID => _ETM35GetContextID i c
  | .TRACE_WAIT_ISYNC => _ETM35WaitISYNC i c
  | .TRACE_GET_CONTEXTBYTE => _ETM35GetContextByte i c
  | .TRACE_GET_INFOBYTE => _ETM35GetInfoByte i c
  | .TRACE_GET_IADDRESS => _ETM35GetIAddress i c
  | .TRACE_GET_ICYCLECOUNT => _ETM35GetICyclecount i c

/-- `_ETM35DecoderPumpAction`: pump one byte into the ETM35 protocol decoder.
The A-Sync accumulation check runs before per-state dispatch: five or more
accumulated 0x00 bytes followed by 0x80 force the IDLE state.  Returns the
updated decoder and the pump event; in the source, the callback `cb(d)` is
then invoked iff the event is not `TRACE_EV_NONE` and `rxedISYNC` holds
(see `_ETM35PumpFires`). -/
def _ETM35DecoderPumpAction (i : TRACEDecoder) (c : Nat) : TRACEDecoder × TRACEDecoderPumpEvent :=
  if 5 ≤ i.asyncCount ∧ c = 0x80 then
    ({ i with p := .TRACE_IDLE }, .TRACE_EV_NONE)
  else
    _ETM35Dispatch { i with asyncCount := if c ≠ 0 then 0 else i.asyncCount + 1 } c

/-- The condition under which `_ETM35DecoderPumpAction` invokes the message
callback: `(retVal != TRACE_EV_NONE) && (i->rxedISYNC)`, evaluated on the
post-switch decoder. -/
def _ETM35PumpFires (i : TRACEDecoder) (c : Nat) : Bool :=
  decide ((_ETM35DecoderPumpAction i c).2 ≠ TRACEDecoderPumpEvent.TRACE_EV_NONE) &&
  (_ETM35DecoderPumpAction i c).1.rxedISYNC

/-- `_MTBDecoderPumpAction`: pump one (source, dest) address pair into the MTB
decoder.  The unreachable default case of the source's switch carries
`assert(false)`; it is modelled as a no-op. -/
def _MTBDecoderPumpAction (i : TRACEDecoder) (source dest : Nat) :
    TRACEDecoder × TRACEDecoderPumpEvent :=
  match i.p with
  | .TRACE_UNSYNCED =>
    let i1 := { i with cpu := { i.cpu with nextAddr := (dest &&& 0xFFFFFFFE) ||| (source &&& 1) } }
    let i2 := if dest &&& 1 ≠ 0 then _stateChange i1 EV_CH_TRACESTART else i1
    ({ i2 with p := .TRACE_IDLE }, .TRACE_EV_NONE)
  | .TRACE_IDLE =>
    let i1 := if i.cpu.nextAddr &&& 1 ≠ 0 then _stateChange i EV_CH_EX_ENTRY else i
    let i2 := if dest &&& 1 ≠ 0 then _stateChange i1 EV_CH_TRACESTART else i1
    let i3 := { i2 with cpu := { i2.cpu with
                  addr := i2.cpu.nextAddr &&& 0xFFFFFFFE,
                  nextAddr := (dest &&& 0xFFFFFFFE) ||| (source &&& 1),
                  toAddr := source &&& 0xFFFFFFFE,
                  exception := 0 } }
    let i4 := _stateChange (_stateChange i3 EV_CH_ADDRESS) EV_CH_LINEAR
    (i4, .TRACE_EV_MSG_RXED)
  | _ => (i, .TRACE_EV_NONE)

/-- The condition under which `_MTBDecoderPumpAction` invokes the message
callback: `retVal != TRACE_EV_NONE` (no `rxedISYNC` check, unlike ETM35). -/
def _MTBPumpFires (i : TRACEDecoder) (source dest : Nat) : Bool :=
  decide ((_MTBDecoderPumpAction i source dest).2 ≠ TRACEDecoderPumpEvent.TRACE_EV_NONE)

/-- `TRACEDecoderInit`: zero all state (memset) and apply the configuration. -/
def TRACEDecoderInit (protocol : TRACEprotocol) (usingAltAddrEncodeSet : Bool) : TRACEDecoder :=
  { protocol := protocol, usingAltAddrEncode := usingAltAddrEncodeSet }

/-- `TRACEDecoderForceSync`: force the decoder into a specific sync state,
maintaining the statistics counters. -/
def TRACEDecoderForceSync (i : TRACEDecoder) (isSynced : Bool) : TRACEDecoder :=
  if i.p = .TRACE_UNSYNCED then
    if isSynced then { i with p := .TRACE_IDLE, syncCount := i.syncCount + 1 } else i
  else
    if isSynced = false then
      { i with lostSyncCount := i.lostSyncCount + 1, asyncCount := 0,
               rxedISYNC := false, p := .TRACE_UNSYNCED }
    else i

/-- `TRACEDecoderIsSynced`. -/
def TRACEDecoderIsSynced (i : TRACEDecoder) : Bool :=
  decide (i.p ≠ TRACEprotoState.TRACE_UNSYNCED)

/-- `TRACEStateChanged`: test-and-clear one change bit.  Returns the updated
decoder and the result `(changeRecord & (1 << c)) != 0`; the bit is cleared by
`changeRecord &= ~(1 << c)` with the complement taken on the 32-bit record. -/
def TRACEStateChanged (i : TRACEDecoder) (c : Nat) : TRACEDecoder × Bool :=
  ({ i with cpu := { i.cpu with
       changeRecord := i.cpu.changeRecord &&& (0xFFFFFFFF ^^^ (1 <<< c)) } },
   decide (i.cpu.changeRecord &&& (1 <<< c) ≠ 0))

/-- `TRACEDecoderPump` specialised to the ETM35 protocol: pump a byte list one
octet at a time.  The second component records, for each invocation of the
message callback, the value of `rxedISYNC` at the moment of the invocation. -/
def TRACEDecoderPumpETM35 (i : TRACEDecoder) : List Nat → TRACEDecoder × List Bool
  | [] => (i, [])
  | c :: cs =>
    let r := _ETM35DecoderPumpAction i c
    let rest := TRACEDecoderPumpETM35 r.1 cs
    if r.2 ≠ TRACEDecoderPumpEvent.TRACE_EV_NONE ∧ r.1.rxedISYNC = true then
      (rest.1, r.1.rxedISYNC :: rest.2)
    else
      rest

/-- `TRACEDecoderPump` specialised to the MTB protocol: pump a list of
(source, dest) pairs.  The second component records, for each invocation of
the message callback, the value of `rxedISYNC` at the moment of the
invocation (the MTB source invokes the callback whenever the event is not
`TRACE_EV_NONE`, with no `rxedISYNC` check). -/
def TRACEDecoderPumpMTB (i : TRACEDecoder) : List (Nat × Nat) → TRACEDecoder × List Bool
  | [] => (i, [])
  | sd :: ps =>
    let r := _MTBDecoderPumpAction i sd.1 sd.2
    let rest := TRACEDecoderPumpMTB r.1 ps
    if r.2 ≠ TRACEDecoderPumpEvent.TRACE_EV_NONE then
      (rest.1, r.1.rxedISYNC :: rest.2)
    else
      rest

theorem and_of_and_mask {c M v : Nat} (h : c &&& M = v) (m : Nat) (hsub : M &&& m = m) :
    c &&& m = v &&& m := by
  calc c &&& m = c &&& (M &&& m) := by rw [hsub]
  _ = (c &&& M) &&& m := (Nat.and_assoc c M m).symm
  _ = v &&& m := by rw [h]

theorem ne_of_and_mask {c M v : Nat} (h : c &&& M = v) (k : Nat) (hk : k &&& M ≠ v) :
    c ≠ k := by
  intro he
  rw [he] at h
  exact hk h

theorem and_high_mask_eq_zero {c : Nat} (h : c &&& 0xFF = c) (m : Nat) (hm : 0xFF &&& m = 0) :
    c &&& m = 0 := by
  calc c &&& m = (c &&& 0xFF) &&& m := by rw [h]
  _ = c &&& (0xFF &&& m) := Nat.and_assoc c 0xFF m
  _ = 0 := by rw [hm, Nat.and_zero]

theorem and_ff_of_lt {c : Nat} (h : c < 256) : c &&& 0xFF = c := by
  have h2 : (0xFF : Nat) = 2 ^ 8 - 1 := by norm_num
  rw [h2, Nat.and_pow_two_sub_one_eq_mod]
  exact Nat.mod_eq_of_lt h

theorem if_and_bit6 (c : Nat) : (if c &&& 0x40 ≠ 0 then (1 : Nat) else 0) = (c >>> 6) &&& 1 := by
  have e2 : (c >>> 6) &&& 1 = c / 64 % 2 := by
    rw [Nat.and_one_is_mod, Nat.shiftRight_eq_div_pow]
  have e3 : c &&& 0x40 = (Nat.testBit c 6).toNat * 64 := by
    have h40 : (0x40 : Nat) = 2 ^ 6 := by norm_num
    rw [h40, Nat.and_two_pow]
  rw [e2, e3, Nat.testBit_to_div_mod]
  have e4 : (2 : Nat) ^ 6 = 64 := by norm_num
  rw [e4]
  rcases Nat.mod_two_eq_zero_or_one (c / 64) with h | h <;> simp [h]

theorem decide_and_shift_ne_zero (r k : Nat) :
    decide (r &&& (1 <<< k) ≠ 0) = r.testBit k := by
  rw [Nat.one_shiftLeft, Nat.and_two_pow]
  cases h : r.testBit k <;> simp [h, Nat.pos_iff_ne_zero.mp (Nat.two_pow_pos k)]

/-- C6: `TRACEStateChanged(k)` returns true iff bit `k` of `changeRecord` is
set, always clears that bit, leaves every other bit unchanged, and a second
call with the same kind returns false and changes nothing (test-and-clear,
idempotent clearing). -/
theorem C6_TRACEStateChanged_test_and_clear (i : TRACEDecoder) (k j : Nat)
    (hk : k < 32) (hj : j < 32) (hjk : j ≠ k) :
    ((TRACEStateChanged i k).2 = i.cpu.changeRecord.testBit k) ∧
    ((TRACEStateChanged i k).1.cpu.changeRecord.testBit k = false) ∧
    ((TRACEStateChanged i k).1.cpu.changeRecord.testBit j = i.cpu.changeRecord.testBit j) ∧
    ((TRACEStateChanged (TRACEStateChanged i k).1 k).2 = false) ∧
    ((TRACEStateChanged (TRACEStateChanged i k).1 k).1 = (TRACEStateChanged i k).1) := by
  have hM : (0xFFFFFFFF : Nat) = 2 ^ 32 - 1 := by norm_num
  have hmk : Nat.testBit (0xFFFFFFFF ^^^ 2 ^ k) k = false := by
    rw [Nat.testBit_xor, hM, Nat.testBit_two_pow_sub_one, Nat.testBit_two_pow_self]
    simp [hk]
  have hmj : Nat.testBit (0xFFFFFFFF ^^^ 2 ^ k) j = true := by
    rw [Nat.testBit_xor, hM, Nat.testBit_two_pow_sub_one, Nat.testBit_two_pow_of_ne (Ne.symm hjk)]
    simp [hj]
  have hbitk : ∀ r : Nat, Nat.testBit (r &&& (0xFFFFFFFF ^^^ 1 <<< k)) k = false := by
    intro r
    rw [Nat.one_shiftLeft, Nat.testBit_and, hmk, Bool.and_false]
  refine ⟨decide_and_shift_ne_zero _ _, ?_, ?_, ?_, ?_⟩
  · simp only [TRACEStateChanged]
    exact hbitk _
  · simp only [TRACEStateChanged]
    rw [Nat.one_shiftLeft, Nat.testBit_and, hmj, Bool.and_true]
  · simp only [TRACEStateChanged]
    rw [decide_and_shift_ne_zero]
    exact hbitk _
  · simp [TRACEStateChanged, Nat.and_assoc]

/-- C6 witness: concrete instantiation of the test-and-clear theorem at a
record with bits 20 and 3 set, kind 20 queried. -/
theorem C6_TRACEStateChanged_test_and_clear_witness :
    (20 < 32 ∧ 3 < 32 ∧ (3 : Nat) ≠ 20) ∧
    (let i0 : TRACEDecoder := { cpu := { changeRecord := (1 <<< 20) ||| (1 <<< 3) } }
     ((TRACEStateChanged i0 20).2 = i0.cpu.changeRecord.testBit 20) ∧
     ((TRACEStateChanged i0 20).1.cpu.changeRecord.testBit 20 = false) ∧
     ((TRACEStateChanged i0 20).1.cpu.changeRecord.testBit 3 = i0.cpu.changeRecord.testBit 3) ∧
     ((TRACEStateChanged (TRACEStateChanged i0 20).1 20).2 = false) ∧
     ((TRACEStateChanged (TRACEStateChanged i0 20).1 20).1 = (TRACEStateChanged i0 20).1)) :=
  ⟨⟨by decide, by decide, by decide⟩,
   C6_TRACEStateChanged_test_and_clear { cpu := { changeRecord := (1 <<< 20) ||| (1 <<< 3) } }
     20 3 (by decide) (by decide) (by decide)⟩

/-- C1 counterexample: in the MTB protocol, pumping the two pairs (0,0), (0,0)
from a freshly initialised decoder invokes the message callback exactly once,
and at that invocation `rxedISYNC` is false (the MTB pump action calls the
callback without the `rxedISYNC` check that the ETM35 pump action performs). -/
theorem C1_counterexample :
    (TRACEDecoderPumpMTB (TRACEDecoderInit .TRACE_PROT_MTB false) [(0, 0), (0, 0)]).2 =
      [false] := by
  decide

/-- C4 counterexample: byte 0xFC matches the non-cycle-accurate Format-1
P-header pattern and yields `eatoms = 15`, `natoms = 1`, so
`eatoms + natoms = 16 > 15`, refuting the claimed bound of 15. -/
theorem C4_counterexample :
    (0xFC : Nat) &&& 0b10000011 = 0b10000000 ∧
    (_ETM35DecoderPumpAction { p := .TRACE_IDLE } 0xFC).1.cpu.eatoms +
      (_ETM35DecoderPumpAction { p := .TRACE_IDLE } 0xFC).1.cpu.natoms = 16 ∧
    ¬((_ETM35DecoderPumpAction { p := .TRACE_IDLE } 0xFC).1.cpu.eatoms +
        (_ETM35DecoderPumpAction { p := .TRACE_IDLE } 0xFC).1.cpu.natoms ≤ 15) ∧
    (_ETM35DecoderPumpAction { p := .TRACE_IDLE } 0xFC).2 =
      TRACEDecoderPumpEvent.TRACE_EV_MSG_RXED := by
  decide

/-- C5 counterexample: with the decoder forced into IDLE before any I-Sync, a
trigger packet (0x0C) sets the TRIGGER change bit, and the next byte 0x08 (the
first valid I-Sync) clears the whole change record — a decoder-internal action
clearing a previously set change bit without any consumer poll. -/
theorem C5_counterexample :
    ((_ETM35DecoderPumpAction
        (TRACEDecoderForceSync (TRACEDecoderInit .TRACE_PROT_ETM35 false) true)
        0x0C).1.cpu.changeRecord.testBit EV_CH_TRIGGER = true) ∧
    ((_ETM35DecoderPumpAction
        (_ETM35DecoderPumpAction
          (TRACEDecoderForceSync (TRACEDecoderInit .TRACE_PROT_ETM35 false) true)
          0x0C).1
        0x08).1.cpu.changeRecord = 0) := by
  decide

theorem pumpETM35_fst_cons (i : TRACEDecoder) (c : Nat) (cs : List Nat) :
    (TRACEDecoderPumpETM35 i (c :: cs)).1 =
    (TRACEDecoderPumpETM35 (_ETM35DecoderPumpAction i c).1 cs).1 := by
  simp only [TRACEDecoderPumpETM35]
  split <;> rfl

theorem terminateAddrByte_asyncCount (i : TRACEDecoder) (c : Nat) (C X : Bool)
    (st : TRACEprotoState) :
    (terminateAddrByte i c C X st).1.asyncCount = i.asyncCount := by
  simp only [terminateAddrByte, _stateChange]
  split_ifs <;> rfl

theorem _ETM35Idle_asyncCount (i : TRACEDecoder) (c : Nat) :
    (_ETM35Idle i c).1.asyncCount = i.asyncCount := by
  simp only [_ETM35Idle, _stateChange]
  simp only [terminateAddrByte_asyncCount,
    apply_ite (@Prod.fst TRACEDecoder TRACEDecoderPumpEvent),
    apply_ite TRACEDecoder.asyncCount, ite_self]

theorem _ETM35CollectBAalt_asyncCount (i : TRACEDecoder) (c : Nat) :
    (_ETM35CollectBAalt i c).1.asyncCount = i.asyncCount := by
  simp only [_ETM35CollectBAalt]
  rw [terminateAddrByte_asyncCount]

theorem _ETM35CollectBAstd_asyncCount (i : TRACEDecoder) (c : Nat) :
    (_ETM35CollectBAstd i c).1.asyncCount = i.asyncCount := by
  simp only [_ETM35CollectBAstd]
  rw [terminateAddrByte_asyncCount]

theorem _ETM35CollectException_asyncCount (i : TRACEDecoder) (c : Nat) :
    (_ETM35CollectException i c).1.asyncCount = i.asyncCount := by
  simp only [_ETM35CollectException, _stateChange]
  simp only [apply_ite (@Prod.fst TRACEDecoder TRACEDecoderPumpEvent),
    apply_ite TRACEDecoder.asyncCount, ite_self]

theorem _ETM35GetVMID_asyncCount (i : TRACEDecoder) (c : Nat) :
    (_ETM35GetVMID i c).1.asyncCount = i.asyncCount := by
  simp only [_ETM35GetVMID, _stateChange]
  simp only [apply_ite (@Prod.fst TRACEDecoder TRACEDecoderPumpEvent),
    apply_ite TRACEDecoder.asyncCount, ite_self]

theorem _ETM35GetTstamp_asyncCount (i : TRACEDecoder) (c : Nat) :
    (_ETM35GetTstamp i c).1.asyncCount = i.asyncCount := by
  simp only [_ETM35GetTstamp, _stateChange]
  simp only [apply_ite (@Prod.fst TRACEDecoder TRACEDecoderPumpEvent),
    apply_ite TRACEDecoder.asyncCount, ite_self]

theorem _ETM35GetCyclecount_asyncCount (i : TRACEDecoder) (c : Nat) :
    (_ETM35GetCyclecount i c).1.asyncCount = i.asyncCount := by
  simp only [_ETM35GetCyclecount, _stateChange]
  simp only [apply_ite (@Prod.fst TRACEDecoder TRACEDecoderPumpEvent),
    apply_ite TRACEDecoder.asyncCount, ite_self]

theorem _ETM35GetContextID_asyncCount (i : TRACEDecoder) (c : Nat) :
    (_ETM35GetContextID i c).1.asyncCount = i.asyncCount := by
  simp only [_ETM35GetContextID, _stateChange]
  simp only [apply_ite (@Prod.fst TRACEDecoder TRACEDecoderPumpEvent),
    apply_ite TRACEDecoder.asyncCount, ite_self]

theorem _ETM35WaitISYNC_asyncCount (i : TRACEDecoder) (c : Nat) :
    (_ETM35WaitISYNC i c).1.asyncCount = i.asyncCount := by
  simp only [_ETM35WaitISYNC]
  simp only [apply_ite (@Prod.fst TRACEDecoder TRACEDecoderPumpEvent),
    apply_ite TRACEDecoder.asyncCount, ite_self]

theorem _ETM35GetContextByte_asyncCount (i : TRACEDecoder) (c : Nat) :
    (_ETM35GetContextByte i c).1.asyncCount = i.asyncCount := by
  simp only [_ETM35GetContextByte, _stateChange]
  simp only [apply_ite (@Prod.fst TRACEDecoder TRACEDecoderPumpEvent),
    apply_ite TRACEDecoder.asyncCount, ite_self]

theorem _ETM35InfoLSiP_asyncCount (i : TRACEDecoder) (c : Nat) :
    (_ETM35InfoLSiP i c).asyncCount = i.asyncCount := by
  simp only [_ETM35InfoLSiP, _stateChange]
  split_ifs <;> rfl

theorem _ETM35InfoReason_asyncCount (i : TRACEDecoder) (c : Nat) :
    (_ETM35InfoReason i c).asyncCount = i.asyncCount := by
  simp only [_ETM35InfoReason, _stateChange]
  split_ifs <;> rfl

theorem _ETM35InfoJazelle_asyncCount (i : TRACEDecoder) (c : Nat) :
    (_ETM35InfoJazelle i c).asyncCount = i.asyncCount := by
  simp only [_ETM35InfoJazelle, _stateChange]
  split_ifs <;> rfl

theorem _ETM35InfoNonSecure_asyncCount (i : TRACEDecoder) (c : Nat) :
    (_ETM35InfoNonSecure i c).asyncCount = i.asyncCount := by
  simp only [_ETM35InfoNonSecure, _stateChange]
  split_ifs <;> rfl

theorem _ETM35InfoAltISA_asyncCount (i : TRACEDecoder) (c : Nat) :
    (_ETM35InfoAltISA i c).asyncCount = i.asyncCount := by
  simp only [_ETM35InfoAltISA, _stateChange]
  split_ifs <;> rfl

theorem _ETM35InfoHyp_asyncCount (i : TRACEDecoder) (c : Nat) :
    (_ETM35InfoHyp i c).asyncCount = i.asyncCount := by
  simp only [_ETM35InfoHyp, _stateChange]
  split_ifs <;> rfl

theorem _ETM35GetInfoByte_asyncCount (i : TRACEDecoder) (c : Nat) :
    (_ETM35GetInfoByte i c).1.asyncCount = i.asyncCount := by
  simp only [_ETM35GetInfoByte]
  simp only [apply_ite (@Prod.fst TRACEDecoder TRACEDecoderPumpEvent),
    apply_ite TRACEDecoder.asyncCount, ite_self]
  rw [_ETM35InfoHyp_asyncCount, _ETM35InfoAltISA_asyncCount, _ETM35InfoNonSecure_asyncCount,
    _ETM35InfoJazelle_asyncCount, _ETM35InfoReason_asyncCount, _ETM35InfoLSiP_asyncCount]

theorem _ETM35GetIAddress_asyncCount (i : TRACEDecoder) (c : Nat) :
    (_ETM35GetIAddress i c).1.asyncCount = i.asyncCount := by
  simp only [_ETM35GetIAddress, _stateChange]
  simp only [apply_ite (@Prod.fst TRACEDecoder TRACEDecoderPumpEvent),
    apply_ite TRACEDecoder.asyncCount, ite_self]

theorem _ETM35GetICyclecount_asyncCount (i : TRACEDecoder) (c : Nat) :
    (_ETM35GetICyclecount i c).1.asyncCount = i.asyncCount := by
  simp only [_ETM35GetICyclecount, _stateChange]
  simp only [apply_ite (@Prod.fst TRACEDecoder TRACEDecoderPumpEvent),
    apply_ite TRACEDecoder.asyncCount, ite_self]

theorem dispatch_asyncCount (i : TRACEDecoder) (c : Nat) :
    (_ETM35Dispatch i c).1.asyncCount = i.asyncCount := by
  rcases hp : i.p <;> simp only [_ETM35Dispatch, hp] <;>
    first
      | rfl
      | exact _ETM35Idle_asyncCount i c
      | exact _ETM35CollectBAalt_asyncCount i c
      | exact _ETM35CollectBAstd_asyncCount i c
      | exact _ETM35CollectException_asyncCount i c
      | exact _ETM35GetVMID_asyncCount i c
      | exact _ETM35GetTstamp_asyncCount i c
      | exact _ETM35GetCyclecount_asyncCount i c
      | exact _ETM35GetContextID_asyncCount i c
      | exact _ETM35WaitISYNC_asyncCount i c
      | exact _ETM35GetContextByte_asyncCount i c
      | exact _ETM35GetInfoByte_asyncCount i c
      | exact _ETM35GetIAddress_asyncCount i c
      | exact _ETM35GetICyclecount_asyncCount i c

theorem pumpAction_asyncCount_zero (i : TRACEDecoder) :
    (_ETM35DecoderPumpAction i 0).1.asyncCount = i.asyncCount + 1 := by
  unfold _ETM35DecoderPumpAction
  rw [if_neg (by simp)]
  rw [dispatch_asyncCount]
  simp

theorem pumpAction_unsynced_zero (i : TRACEDecoder) (hp : i.p = .TRACE_UNSYNCED) :
    _ETM35DecoderPumpAction i 0 =
      ({ i with asyncCount := i.asyncCount + 1 }, .TRACE_EV_NONE) := by
  unfold _ETM35DecoderPumpAction
  rw [if_neg (by simp)]
  simp [_ETM35Dispatch, hp]

theorem pumpAction_async_complete (i : TRACEDecoder) (ha : 5 ≤ i.asyncCount) :
    _ETM35DecoderPumpAction i 0x80 = ({ i with p := .TRACE_IDLE }, .TRACE_EV_NONE) := by
  unfold _ETM35DecoderPumpAction
  rw [if_pos ⟨ha, rfl⟩]

theorem pumpETM35_zeros_unsynced (n : Nat) :
    ∀ (i : TRACEDecoder), i.p = .TRACE_UNSYNCED → 5 ≤ i.asyncCount + n →
      (TRACEDecoderPumpETM35 i (List.replicate n 0 ++ [0x80])).1.p =
        TRACEprotoState.TRACE_IDLE ∧
      (TRACEDecoderPumpETM35 i (List.replicate n 0 ++ [0x80])).2 = [] := by
  induction n with
  | zero =>
    intro i hp ha
    have hr := pumpAction_async_complete i (by omega)
    simp [TRACEDecoderPumpETM35, hr]
  | succ n ih =>
    intro i hp ha
    have hstep := pumpAction_unsynced_zero i hp
    simp only [List.replicate_succ, List.cons_append, TRACEDecoderPumpETM35, hstep]
    simp only [ne_eq, not_true_eq_false, false_and, if_false]
    exact ih _ (by simp [hp]) (by simp; omega)

theorem pumpETM35_zeros_any (n : Nat) :
    ∀ (i : TRACEDecoder), 5 ≤ i.asyncCount + n →
      (TRACEDecoderPumpETM35 i (List.replicate n 0 ++ [0x80])).1.p =
        TRACEprotoState.TRACE_IDLE := by
  induction n with
  | zero =>
    intro i ha
    have hr := pumpAction_async_complete i (by omega)
    simp [TRACEDecoderPumpETM35, hr]
  | succ n ih =>
    intro i ha
    simp only [List.replicate_succ, List.cons_append, pumpETM35_fst_cons]
    exact ih _ (by rw [pumpAction_asyncCount_zero]; omega)

/-- C3: pumping N ≥ 5 bytes of 0x00 followed by one byte 0x80 into an ETM35
decoder in the UNSYNCED state leaves the decoder in the IDLE state, with no
message callback fired. -/
theorem C3_async_resync_from_unsynced (i : TRACEDecoder) (n : Nat)
    (hp : i.p = .TRACE_UNSYNCED) (hn : 5 ≤ n) :
    (TRACEDecoderPumpETM35 i (List.replicate n 0 ++ [0x80])).1.p =
      TRACEprotoState.TRACE_IDLE ∧
    (TRACEDecoderPumpETM35 i (List.replicate n 0 ++ [0x80])).2 = [] :=
  pumpETM35_zeros_unsynced n i hp (by omega)

/-- C3 witness: the A-Sync scenario at N = 5 from a freshly initialised
decoder. -/
theorem C3_async_resync_from_unsynced_witness :
    ((TRACEDecoderInit .TRACE_PROT_ETM35 false).p = .TRACE_UNSYNCED ∧ 5 ≤ 5) ∧
    ((TRACEDecoderPumpETM35 (TRACEDecoderInit .TRACE_PROT_ETM35 false)
        (List.replicate 5 0 ++ [0x80])).1.p = TRACEprotoState.TRACE_IDLE ∧
     (TRACEDecoderPumpETM35 (TRACEDecoderInit .TRACE_PROT_ETM35 false)
        (List.replicate 5 0 ++ [0x80])).2 = []) :=
  ⟨⟨rfl, by omega⟩,
   C3_async_resync_from_unsynced (TRACEDecoderInit .TRACE_PROT_ETM35 false) 5 rfl (by omega)⟩

/-- C10: from every ETM35 decoder state (including mid-packet collection
states), pumping five or more 0x00 bytes followed by one 0x80 byte leaves the
decoder in the IDLE state: the A-Sync accumulation check runs before per-state
dispatch on every byte and no state handler writes `asyncCount`. -/
theorem C10_async_resync_any_state (i : TRACEDecoder) (n : Nat) (hn : 5 ≤ n) :
    (TRACEDecoderPumpETM35 i (List.replicate n 0 ++ [0x80])).1.p =
      TRACEprotoState.TRACE_IDLE :=
  pumpETM35_zeros_any n i (by omega)

/-- C10 witness: the A-Sync escape applied to a decoder abandoned mid-way
through a timestamp collection. -/
theorem C10_async_resync_any_state_witness :
    5 ≤ 5 ∧
    (TRACEDecoderPumpETM35
        ({ p := .TRACE_GET_TSTAMP, byteCount := 3, tsConstruct := 99,
           rxedISYNC := true } : TRACEDecoder)
        (List.replicate 5 0 ++ [0x80])).1.p = TRACEprotoState.TRACE_IDLE :=
  ⟨by omega,
   C10_async_resync_any_state
     ({ p := .TRACE_GET_TSTAMP, byteCount := 3, tsConstruct := 99,
        rxedISYNC := true } : TRACEDecoder) 5 (by omega)⟩

/-- C1 (amended): in the ETM35 protocol every invocation of the message
callback happens with `rxedISYNC` true (and each pumped byte produces at most
one invocation); the MTB pump action, by contrast, invokes the callback on
every completed pair message regardless of `rxedISYNC`, which the MTB decoder
never sets. -/
theorem C1_amended_etm35_callback_gated (bs : List Nat) :
    ∀ (i : TRACEDecoder) (b : Bool), b ∈ (TRACEDecoderPumpETM35 i bs).2 → b = true := by
  induction bs with
  | nil =>
    intro i b hb
    simp [TRACEDecoderPumpETM35] at hb
  | cons c cs ih =>
    intro i b hb
    simp only [TRACEDecoderPumpETM35] at hb
    split at hb
    case isTrue h =>
      rcases List.mem_cons.mp hb with h1 | h2
      · rw [h1]
        exact h.2
      · exact ih _ _ h2
    case isFalse h =>
      exact ih _ _ hb

/-- C1 witness: a trigger packet pumped after the first I-Sync produces one
callback invocation, recorded with `rxedISYNC = true`. -/
theorem C1_amended_etm35_callback_gated_witness :
    true ∈ (TRACEDecoderPumpETM35
      ({ p := .TRACE_IDLE, rxedISYNC := true } : TRACEDecoder) [0x0C]).2 ∧
    true = true :=
  ⟨by decide,
   C1_amended_etm35_callback_gated [0x0C]
     ({ p := .TRACE_IDLE, rxedISYNC := true } : TRACEDecoder) true (by decide)⟩

theorem pumpAction_eq_dispatch (i : TRACEDecoder) (c : Nat)
    (hna : i.asyncCount < 5 ∨ c ≠ 0x80) :
    _ETM35DecoderPumpAction i c =
      _ETM35Dispatch { i with asyncCount := if c ≠ 0 then 0 else i.asyncCount + 1 } c := by
  unfold _ETM35DecoderPumpAction
  rw [if_neg]
  rintro ⟨h1, h2⟩
  rcases hna with h | h
  · omega
  · exact h h2

theorem pumpAction_idle (i : TRACEDecoder) (c : Nat)
    (hp : i.p = .TRACE_IDLE) (hna : i.asyncCount < 5 ∨ c ≠ 0x80) :
    _ETM35DecoderPumpAction i c =
      _ETM35Idle { i with asyncCount := if c ≠ 0 then 0 else i.asyncCount + 1 } c := by
  rw [pumpAction_eq_dispatch i c hna]
  simp [_ETM35Dispatch, hp]

theorem pumpAction_getTstamp (i : TRACEDecoder) (c : Nat)
    (hp : i.p = .TRACE_GET_TSTAMP) (hna : i.asyncCount < 5 ∨ c ≠ 0x80) :
    _ETM35DecoderPumpAction i c =
      _ETM35GetTstamp { i with asyncCount := if c ≠ 0 then 0 else i.asyncCount + 1 } c := by
  rw [pumpAction_eq_dispatch i c hna]
  simp [_ETM35Dispatch, hp]

theorem pumpAction_getInfoByte (i : TRACEDecoder) (c : Nat)
    (hp : i.p = .TRACE_GET_INFOBYTE) (hna : i.asyncCount < 5 ∨ c ≠ 0x80) :
    _ETM35DecoderPumpAction i c =
      _ETM35GetInfoByte { i with asyncCount := if c ≠ 0 then 0 else i.asyncCount + 1 } c := by
  rw [pumpAction_eq_dispatch i c hna]
  simp [_ETM35Dispatch, hp]

theorem idle_format1 (i : TRACEDecoder) (c : Nat) (hca : i.cycleAccurate = false)
    (hc : c &&& 0x83 = 0x80) :
    _ETM35Idle i c =
      (_stateChange { i with cpu := { i.cpu with
          eatoms := (c &&& 0x3C) >>> 2,
          natoms := if c &&& 0x40 ≠ 0 then 1 else 0,
          instCount := i.cpu.instCount +
            ((c &&& 0x3C) >>> 2 + (if c &&& 0x40 ≠ 0 then 1 else 0)),
          disposition := (1 <<< ((c &&& 0x3C) >>> 2)) - 1 } } EV_CH_ENATOMS,
       .TRACE_EV_MSG_RXED) := by
  have h1 : c &&& 1 = 0 := (and_of_and_mask hc 1 (by decide)).trans (by decide)
  have h80 : c &&& 0x80 = 0x80 := (and_of_and_mask hc 0x80 (by decide)).trans (by decide)
  have h81 : c &&& 0x81 = 0x80 := (and_of_and_mask hc 0x81 (by decide)).trans (by decide)
  have hne0 : c ≠ 0 := ne_of_and_mask hc 0 (by decide)
  have hne4 : c ≠ 0x04 := ne_of_and_mask hc 0x04 (by decide)
  have hne8 : c ≠ 0x08 := ne_of_and_mask hc 0x08 (by decide)
  have hne70 : c ≠ 0x70 := ne_of_and_mask hc 0x70 (by decide)
  have hne0C : c ≠ 0x0C := ne_of_and_mask hc 0x0C (by decide)
  have hne3C : c ≠ 0x3C := ne_of_and_mask hc 0x3C (by decide)
  have hne66 : c ≠ 0x66 := ne_of_and_mask hc 0x66 (by decide)
  have hne6E : c ≠ 0x6E := ne_of_and_mask hc 0x6E (by decide)
  have hne76 : c ≠ 0x76 := ne_of_and_mask hc 0x76 (by decide)
  have hne7E : c ≠ 0x7E := ne_of_and_mask hc 0x7E (by decide)
  have hfb : ¬(c &&& 0xFB = 0x42) := by
    intro h'
    have h0 : c &&& 0x80 = 0 := (and_of_and_mask h' 0x80 (by decide)).trans (by decide)
    rw [h80] at h0
    exact absurd h0 (by decide)
  simp only [_ETM35Idle, h1, hne0, hne4, hne8, hne70, hne0C, hne3C, hfb, hne66, hne6E,
    hne76, hne7E, h81, hc, hca]
  simp

/-- C2: in the ETM35 IDLE state with `cycleAccurate` false (and the byte not
completing an A-Sync sequence, which takes precedence over dispatch), a byte
matching the Format-1 P-header pattern sets `eatoms = (c & 0x3C) >> 2`,
`natoms = (c >> 6) & 1`, `disposition = (1 << eatoms) - 1`, raises the ENATOMS
change bit, completes a message, and adds `eatoms + natoms` to `instCount`;
in particular byte 0xCC yields eatoms = 3, natoms = 1, disposition = 0b111 and
instCount increased by 4. -/
theorem C2_idle_format1_pheader (i : TRACEDecoder) (c : Nat)
    (hp : i.p = .TRACE_IDLE) (hca : i.cycleAccurate = false)
    (hna : i.asyncCount < 5 ∨ c ≠ 0x80)
    (hc : c &&& 0b10000011 = 0b10000000) :
    (_ETM35DecoderPumpAction i c).1.cpu.eatoms = (c &&& 0x3C) >>> 2 ∧
    (_ETM35DecoderPumpAction i c).1.cpu.natoms = (c >>> 6) &&& 1 ∧
    (_ETM35DecoderPumpAction i c).1.cpu.disposition =
      (1 <<< ((c &&& 0x3C) >>> 2)) - 1 ∧
    (_ETM35DecoderPumpAction i c).1.cpu.changeRecord =
      i.cpu.changeRecord ||| (1 <<< EV_CH_ENATOMS) ∧
    (_ETM35DecoderPumpAction i c).2 = TRACEDecoderPumpEvent.TRACE_EV_MSG_RXED ∧
    (_ETM35DecoderPumpAction i c).1.cpu.instCount =
      i.cpu.instCount + ((c &&& 0x3C) >>> 2) + ((c >>> 6) &&& 1) ∧
    (c = 0xCC →
      (_ETM35DecoderPumpAction i c).1.cpu.eatoms = 3 ∧
      (_ETM35DecoderPumpAction i c).1.cpu.natoms = 1 ∧
      (_ETM35DecoderPumpAction i c).1.cpu.disposition = 0b111 ∧
      (_ETM35DecoderPumpAction i c).1.cpu.instCount = i.cpu.instCount + 4) := by
  have key := idle_format1
    ({ i with asyncCount := if c ≠ 0 then 0 else i.asyncCount + 1 }) c hca hc
  rw [pumpAction_idle i c hp hna, key]
  refine ⟨rfl, if_and_bit6 c, rfl, rfl, rfl, ?_, ?_⟩
  · rw [← if_and_bit6 c, Nat.add_assoc]
    rfl
  · intro he
    subst he
    exact ⟨rfl, rfl, rfl, rfl⟩

/-- C2 witness: the Format-1 scenario at byte 0xCC from an IDLE decoder. -/
theorem C2_idle_format1_pheader_witness :
    (({ p := .TRACE_IDLE } : TRACEDecoder).p = .TRACE_IDLE ∧
     ({ p := .TRACE_IDLE } : TRACEDecoder).cycleAccurate = false ∧
     (0xCC : Nat) &&& 0b10000011 = 0b10000000) ∧
    ((_ETM35DecoderPumpAction ({ p := .TRACE_IDLE } : TRACEDecoder) 0xCC).1.cpu.eatoms = 3 ∧
     (_ETM35DecoderPumpAction ({ p := .TRACE_IDLE } : TRACEDecoder) 0xCC).1.cpu.natoms = 1 ∧
     (_ETM35DecoderPumpAction ({ p := .TRACE_IDLE } : TRACEDecoder) 0xCC).1.cpu.disposition = 0b111 ∧
     (_ETM35DecoderPumpAction ({ p := .TRACE_IDLE } : TRACEDecoder) 0xCC).1.cpu.instCount =
       ({ p := .TRACE_IDLE } : TRACEDecoder).cpu.instCount + 4) :=
  ⟨⟨rfl, rfl, by decide⟩,
   (C2_idle_format1_pheader ({ p := .TRACE_IDLE } : TRACEDecoder) 0xCC rfl rfl
      (Or.inr (by decide)) (by decide)).2.2.2.2.2.2 rfl⟩

/-- C4 (amended): for every byte decoded as a non-cycle-accurate Format-1
P-header, `eatoms + natoms` is at most 16 (the bound 15 fails at 0xFC), and
`instCount` increases by exactly `eatoms + natoms`, so it is monotonically
non-decreasing across such packets. -/
theorem C4_amended_format1_atoms_bound (i : TRACEDecoder) (c : Nat)
    (hp : i.p = .TRACE_IDLE) (hca : i.cycleAccurate = false)
    (hna : i.asyncCount < 5 ∨ c ≠ 0x80)
    (hc : c &&& 0b10000011 = 0b10000000) :
    (_ETM35DecoderPumpAction i c).1.cpu.eatoms +
      (_ETM35DecoderPumpAction i c).1.cpu.natoms ≤ 16 ∧
    (_ETM35DecoderPumpAction i c).1.cpu.instCount =
      i.cpu.instCount + ((_ETM35DecoderPumpAction i c).1.cpu.eatoms +
        (_ETM35DecoderPumpAction i c).1.cpu.natoms) := by
  have key := idle_format1
    ({ i with asyncCount := if c ≠ 0 then 0 else i.asyncCount + 1 }) c hca hc
  rw [pumpAction_idle i c hp hna, key]
  constructor
  · have h1 : c &&& 0x3C ≤ 0x3C := Nat.and_le_right
    have h2 : (c &&& 0x3C) >>> 2 ≤ 15 := by
      rw [Nat.shiftRight_eq_div_pow]
      have e4 : (2 : Nat) ^ 2 = 4 := rfl
      rw [e4]
      omega
    simp only [_stateChange]
    split_ifs <;> omega
  · rfl

/-- C4 witness: the amended bound applied at the extreme byte 0xFC. -/
theorem C4_amended_format1_atoms_bound_witness :
    (({ p := .TRACE_IDLE } : TRACEDecoder).p = .TRACE_IDLE ∧
     (0xFC : Nat) &&& 0b10000011 = 0b10000000) ∧
    ((_ETM35DecoderPumpAction ({ p := .TRACE_IDLE } : TRACEDecoder) 0xFC).1.cpu.eatoms +
       (_ETM35DecoderPumpAction ({ p := .TRACE_IDLE } : TRACEDecoder) 0xFC).1.cpu.natoms ≤ 16 ∧
     (_ETM35DecoderPumpAction ({ p := .TRACE_IDLE } : TRACEDecoder) 0xFC).1.cpu.instCount =
       ({ p := .TRACE_IDLE } : TRACEDecoder).cpu.instCount +
         ((_ETM35DecoderPumpAction ({ p := .TRACE_IDLE } : TRACEDecoder) 0xFC).1.cpu.eatoms +
           (_ETM35DecoderPumpAction ({ p := .TRACE_IDLE } : TRACEDecoder) 0xFC).1.cpu.natoms)) :=
  ⟨⟨rfl, by decide⟩,
   C4_amended_format1_atoms_bound ({ p := .TRACE_IDLE } : TRACEDecoder) 0xFC rfl rfl
     (Or.inr (by decide)) (by decide)⟩

/-- C7: in timestamp collection (GET_TSTAMP, with the A-Sync check not firing),
byte index `byteCount` in 0..7 updates the accumulator through the window
`0x7F << byteCount` (shift by `byteCount`, not by `7*byteCount`), byte index 8
through the window `0xFF << 8`; collection terminates exactly when the
continuation bit is clear or byteCount reaches 9, at which point `cpu.ts` is
set to the accumulator, TSTAMP is raised and a message is emitted. -/
theorem C7_tstamp_collection (i : TRACEDecoder) (c : Nat)
    (hp : i.p = .TRACE_GET_TSTAMP)
    (hna : i.asyncCount < 5 ∨ c ≠ 0x80) :
    (i.byteCount < 8 →
      (_ETM35DecoderPumpAction i c).1.tsConstruct =
        (i.tsConstruct &&& (0xFFFFFFFFFFFFFFFF ^^^ (0x7F <<< i.byteCount))) |||
        ((c &&& 0x7F) <<< i.byteCount)) ∧
    (i.byteCount = 8 →
      (_ETM35DecoderPumpAction i c).1.tsConstruct =
        (i.tsConstruct &&& (0xFFFFFFFFFFFFFFFF ^^^ (0xFF <<< 8))) |||
        ((c &&& 0xFF) <<< 8)) ∧
    (_ETM35DecoderPumpAction i c).1.byteCount = i.byteCount + 1 ∧
    ((c &&& 0x80 = 0 ∨ i.byteCount + 1 = 9) →
      (_ETM35DecoderPumpAction i c).1.p = TRACEprotoState.TRACE_IDLE ∧
      (_ETM35DecoderPumpAction i c).1.cpu.ts =
        (_ETM35DecoderPumpAction i c).1.tsConstruct ∧
      (_ETM35DecoderPumpAction i c).1.cpu.changeRecord =
        i.cpu.changeRecord ||| (1 <<< EV_CH_TSTAMP) ∧
      (_ETM35DecoderPumpAction i c).2 = TRACEDecoderPumpEvent.TRACE_EV_MSG_RXED) ∧
    (¬(c &&& 0x80 = 0 ∨ i.byteCount + 1 = 9) →
      (_ETM35DecoderPumpAction i c).1.p = TRACEprotoState.TRACE_GET_TSTAMP ∧
      (_ETM35DecoderPumpAction i c).2 = TRACEDecoderPumpEvent.TRACE_EV_NONE) := by
  rw [pumpAction_getTstamp i c hp hna]
  have hsm : ((c &&& 0xFF) <<< 8) &&& 0xFFFFFFFFFFFFFFFF = (c &&& 0xFF) <<< 8 := by
    have h1 : c &&& 0xFF ≤ 0xFF := Nat.and_le_right
    have hlt : (c &&& 0xFF) <<< 8 < 2 ^ 64 := by
      rw [Nat.shiftLeft_eq]
      calc (c &&& 0xFF) * 2 ^ 8 ≤ 0xFF * 2 ^ 8 := Nat.mul_le_mul_right _ h1
      _ < 2 ^ 64 := by norm_num
    have hM : (0xFFFFFFFFFFFFFFFF : Nat) = 2 ^ 64 - 1 := by norm_num
    rw [hM]
    exact Nat.and_pow_two_sub_one_of_lt_two_pow hlt
  have hff : ((0xFF : Nat) <<< 8) &&& 0xFFFFFFFFFFFFFFFF = 0xFF <<< 8 := by decide
  refine ⟨?_, ?_, ?_, ?_, ?_⟩
  · intro hb
    simp only [_ETM35GetTstamp, _stateChange]
    simp only [apply_ite (@Prod.fst TRACEDecoder TRACEDecoderPumpEvent),
      apply_ite TRACEDecoder.tsConstruct, ite_self]
    rw [if_pos hb]
  · intro h8
    simp only [_ETM35GetTstamp, _stateChange]
    simp only [apply_ite (@Prod.fst TRACEDecoder TRACEDecoderPumpEvent),
      apply_ite TRACEDecoder.tsConstruct, ite_self]
    rw [if_neg (by omega), h8, hff, hsm]
  · simp only [_ETM35GetTstamp, _stateChange]
    simp only [apply_ite (@Prod.fst TRACEDecoder TRACEDecoderPumpEvent),
      apply_ite TRACEDecoder.byteCount, ite_self]
  · intro ht
    refine ⟨?_, ?_, ?_, ?_⟩ <;>
      · simp only [_ETM35GetTstamp, _stateChange]
        rw [if_pos ht]
  · intro hn
    constructor
    · simp only [_ETM35GetTstamp, _stateChange]
      rw [if_neg hn]
      exact hp
    · simp only [_ETM35GetTstamp, _stateChange]
      rw [if_neg hn]

/-- C7 witness: a single non-continued timestamp byte 0x05 at byte index 0
commits the timestamp and emits. -/
theorem C7_tstamp_collection_witness :
    (({ p := .TRACE_GET_TSTAMP, tsConstruct := 0x3FFF, rxedISYNC := true } : TRACEDecoder).p =
       TRACEprotoState.TRACE_GET_TSTAMP ∧ (0 : Nat) < 8) ∧
    ((_ETM35DecoderPumpAction
        ({ p := .TRACE_GET_TSTAMP, tsConstruct := 0x3FFF, rxedISYNC := true } : TRACEDecoder)
        0x05).1.tsConstruct =
      (({ p := .TRACE_GET_TSTAMP, tsConstruct := 0x3FFF, rxedISYNC := true } : TRACEDecoder).tsConstruct &&&
          (0xFFFFFFFFFFFFFFFF ^^^ (0x7F <<<
            ({ p := .TRACE_GET_TSTAMP, tsConstruct := 0x3FFF, rxedISYNC := true } : TRACEDecoder).byteCount))) |||
        ((0x05 &&& 0x7F) <<<
          ({ p := .TRACE_GET_TSTAMP, tsConstruct := 0x3FFF, rxedISYNC := true } : TRACEDecoder).byteCount)) ∧
    (_ETM35DecoderPumpAction
        ({ p := .TRACE_GET_TSTAMP, tsConstruct := 0x3FFF, rxedISYNC := true } : TRACEDecoder)
        0x05).1.p = TRACEprotoState.TRACE_IDLE ∧
    (_ETM35DecoderPumpAction
        ({ p := .TRACE_GET_TSTAMP, tsConstruct := 0x3FFF, rxedISYNC := true } : TRACEDecoder)
        0x05).2 = TRACEDecoderPumpEvent.TRACE_EV_MSG_RXED :=
  ⟨⟨rfl, by omega⟩,
   (C7_tstamp_collection
      ({ p := .TRACE_GET_TSTAMP, tsConstruct := 0x3FFF, rxedISYNC := true } : TRACEDecoder)
      0x05 rfl (Or.inl (by decide))).1 (by decide),
   ((C7_tstamp_collection
      ({ p := .TRACE_GET_TSTAMP, tsConstruct := 0x3FFF, rxedISYNC := true } : TRACEDecoder)
      0x05 rfl (Or.inl (by decide))).2.2.2.1 (Or.inl (by decide))).1,
   ((C7_tstamp_collection
      ({ p := .TRACE_GET_TSTAMP, tsConstruct := 0x3FFF, rxedISYNC := true } : TRACEDecoder)
      0x05 rfl (Or.inl (by decide))).2.2.2.1 (Or.inl (by decide))).2.2.2⟩

theorem cpu_set_isLSiP_self (x : TRACECPUState) (b : Bool) (h : x.isLSiP = b) :
    ({ x with isLSiP := b } : TRACECPUState) = x := by rw [← h]

theorem cpu_set_reason_self (x : TRACECPUState) (n : Nat) (h : x.reason = n) :
    ({ x with reason := n } : TRACECPUState) = x := by rw [← h]

theorem cpu_set_jazelle_self (x : TRACECPUState) (b : Bool) (h : x.jazelle = b) :
    ({ x with jazelle := b } : TRACECPUState) = x := by rw [← h]

theorem cpu_set_nonSecure_self (x : TRACECPUState) (b : Bool) (h : x.nonSecure = b) :
    ({ x with nonSecure := b } : TRACECPUState) = x := by rw [← h]

theorem cpu_set_altISA_self (x : TRACECPUState) (b : Bool) (h : x.altISA = b) :
    ({ x with altISA := b } : TRACECPUState) = x := by rw [← h]

theorem cpu_set_hyp_self (x : TRACECPUState) (b : Bool) (h : x.hyp = b) :
    ({ x with hyp := b } : TRACECPUState) = x := by rw [← h]

theorem _ETM35InfoLSiP_cpu (i : TRACEDecoder) (c : Nat) (hm : c &&& 0x10000000 = 0) :
    (_ETM35InfoLSiP i c).cpu =
      { i.cpu with isLSiP := false,
                    changeRecord := i.cpu.changeRecord |||
          (if i.cpu.isLSiP = true then 1 <<< EV_CH_ISLSIP else 0) } := by
  simp only [_ETM35InfoLSiP, _stateChange, hm]
  by_cases h : i.cpu.isLSiP <;> simp [h]
  exact (cpu_set_isLSiP_self i.cpu false (by simpa using h)).symm

theorem _ETM35InfoReason_cpu (i : TRACEDecoder) (c : Nat) (hm : c &&& 0x01100000 = 0) :
    (_ETM35InfoReason i c).cpu =
      { i.cpu with reason := 0,
                    changeRecord := i.cpu.changeRecord |||
          (if i.cpu.reason ≠ 0 then 1 <<< EV_CH_REASON else 0) } := by
  simp only [_ETM35InfoReason, _stateChange, hm]
  by_cases h : i.cpu.reason = 0 <;> simp [h]
  exact (cpu_set_reason_self i.cpu 0 h).symm

theorem _ETM35InfoJazelle_cpu (i : TRACEDecoder) (c : Nat) (hm : c &&& 0x00010000 = 0) :
    (_ETM35InfoJazelle i c).cpu =
      { i.cpu with jazelle := false,
                    changeRecord := i.cpu.changeRecord |||
          (if i.cpu.jazelle = true then 1 <<< EV_CH_JAZELLE else 0) } := by
  simp only [_ETM35InfoJazelle, _stateChange, hm]
  by_cases h : i.cpu.jazelle <;> simp [h]
  exact (cpu_set_jazelle_self i.cpu false (by simpa using h)).symm

theorem _ETM35InfoNonSecure_cpu (i : TRACEDecoder) (c : Nat) (hm : c &&& 0x00001000 = 0) :
    (_ETM35InfoNonSecure i c).cpu =
      { i.cpu with nonSecure := false,
                    changeRecord := i.cpu.changeRecord |||
          (if i.cpu.nonSecure = true then 1 <<< EV_CH_SECURE else 0) } := by
  simp only [_ETM35InfoNonSecure, _stateChange, hm]
  by_cases h : i.cpu.nonSecure <;> simp [h]
  exact (cpu_set_nonSecure_self i.cpu false (by simpa using h)).symm

theorem _ETM35InfoAltISA_cpu (i : TRACEDecoder) (c : Nat) (hm : c &&& 0x00000100 = 0) :
    (_ETM35InfoAltISA i c).cpu =
      { i.cpu with altISA := false,
                    changeRecord := i.cpu.changeRecord |||
          (if i.cpu.altISA = true then 1 <<< EV_CH_ALTISA else 0) } := by
  simp only [_ETM35InfoAltISA, _stateChange, hm]
  by_cases h : i.cpu.altISA <;> simp [h]
  exact (cpu_set_altISA_self i.cpu false (by simpa using h)).symm

theorem _ETM35InfoHyp_cpu (i : TRACEDecoder) (c : Nat) :
    (_ETM35InfoHyp i c).cpu =
      { i.cpu with hyp := decide (c &&& 0x00000010 ≠ 0),
                    changeRecord := i.cpu.changeRecord |||
          (if i.cpu.hyp ≠ decide (c &&& 0x00000010 ≠ 0) then 1 <<< EV_CH_HYP else 0) } := by
  simp only [_ETM35InfoHyp, _stateChange]
  cases hd : decide (c &&& 0x00000010 = 0) <;> cases hh : i.cpu.hyp <;>
    simp [hd, hh] <;>
    first
      | exact (cpu_set_hyp_self i.cpu false hh).symm
      | exact (cpu_set_hyp_self i.cpu true hh).symm

set_option maxHeartbeats 1000000 in
/-- C9: in the GET_INFOBYTE state, because the decode masks other than
0x00000010 exceed the 8-bit input range, the resulting CPU state has
`isLSiP = false`, `reason = 0`, `jazelle = false`, `nonSecure = false` and
`altISA = false` regardless of the byte, while `hyp = (c & 0x10) != 0`; each
corresponding change bit is raised exactly on a transition of its field. -/
theorem C9_infobyte_oversized_masks (i : TRACEDecoder) (c : Nat)
    (hp : i.p = .TRACE_GET_INFOBYTE)
    (hna : i.asyncCount < 5 ∨ c ≠ 0x80)
    (hlt : c < 256) :
    (_ETM35DecoderPumpAction i c).1.cpu.isLSiP = false ∧
    (_ETM35DecoderPumpAction i c).1.cpu.reason = 0 ∧
    (_ETM35DecoderPumpAction i c).1.cpu.jazelle = false ∧
    (_ETM35DecoderPumpAction i c).1.cpu.nonSecure = false ∧
    (_ETM35DecoderPumpAction i c).1.cpu.altISA = false ∧
    (_ETM35DecoderPumpAction i c).1.cpu.hyp = decide (c &&& 0x10 ≠ 0) ∧
    (_ETM35DecoderPumpAction i c).1.cpu.changeRecord =
      i.cpu.changeRecord
        ||| (if i.cpu.isLSiP = true then 1 <<< EV_CH_ISLSIP else 0)
        ||| (if i.cpu.reason ≠ 0 then 1 <<< EV_CH_REASON else 0)
        ||| (if i.cpu.jazelle = true then 1 <<< EV_CH_JAZELLE else 0)
        ||| (if i.cpu.nonSecure = true then 1 <<< EV_CH_SECURE else 0)
        ||| (if i.cpu.altISA = true then 1 <<< EV_CH_ALTISA else 0)
        ||| (if i.cpu.hyp ≠ decide (c &&& 0x10 ≠ 0) then 1 <<< EV_CH_HYP else 0) := by
  rw [pumpAction_getInfoByte i c hp hna]
  have h255 := and_ff_of_lt hlt
  have hm1 : c &&& 0x10000000 = 0 := and_high_mask_eq_zero h255 _ (by decide)
  have hm2 : c &&& 0x01100000 = 0 := and_high_mask_eq_zero h255 _ (by decide)
  have hm3 : c &&& 0x00010000 = 0 := and_high_mask_eq_zero h255 _ (by decide)
  have hm4 : c &&& 0x00001000 = 0 := and_high_mask_eq_zero h255 _ (by decide)
  have hm5 : c &&& 0x00000100 = 0 := and_high_mask_eq_zero h255 _ (by decide)
  simp only [_ETM35GetInfoByte]
  simp only [apply_ite (@Prod.fst TRACEDecoder TRACEDecoderPumpEvent),
    apply_ite TRACEDecoder.cpu, ite_self]
  rw [_ETM35InfoHyp_cpu, _ETM35InfoAltISA_cpu _ c hm5, _ETM35InfoNonSecure_cpu _ c hm4,
    _ETM35InfoJazelle_cpu _ c hm3, _ETM35InfoReason_cpu _ c hm2, _ETM35InfoLSiP_cpu _ c hm1]
  simp

/-- C9 witness: info byte 0x90 (bits 7 and 4 set) processed in GET_INFOBYTE
with `nonSecure` previously true: all oversized-mask fields come out
false/zero and `hyp` tracks bit 4. -/
theorem C9_infobyte_oversized_masks_witness :
    (({ p := .TRACE_GET_INFOBYTE, rxedISYNC := true,
        cpu := { nonSecure := true } } : TRACEDecoder).p =
        TRACEprotoState.TRACE_GET_INFOBYTE ∧ (0x90 : Nat) < 256) ∧
    (_ETM35DecoderPumpAction
        ({ p := .TRACE_GET_INFOBYTE, rxedISYNC := true,
           cpu := { nonSecure := true } } : TRACEDecoder) 0x90).1.cpu.isLSiP = false ∧
    (_ETM35DecoderPumpAction
        ({ p := .TRACE_GET_INFOBYTE, rxedISYNC := true,
           cpu := { nonSecure := true } } : TRACEDecoder) 0x90).1.cpu.nonSecure = false ∧
    (_ETM35DecoderPumpAction
        ({ p := .TRACE_GET_INFOBYTE, rxedISYNC := true,
           cpu := { nonSecure := true } } : TRACEDecoder) 0x90).1.cpu.hyp =
      decide ((0x90 : Nat) &&& 0x10 ≠ 0) :=
  ⟨⟨rfl, by omega⟩,
   (C9_infobyte_oversized_masks
      ({ p := .TRACE_GET_INFOBYTE, rxedISYNC := true,
         cpu := { nonSecure := true } } : TRACEDecoder) 0x90 rfl
      (Or.inr (by decide)) (by omega)).1,
   (C9_infobyte_oversized_masks
      ({ p := .TRACE_GET_INFOBYTE, rxedISYNC := true,
         cpu := { nonSecure := true } } : TRACEDecoder) 0x90 rfl
      (Or.inr (by decide)) (by omega)).2.2.2.1,
   (C9_infobyte_oversized_masks
      ({ p := .TRACE_GET_INFOBYTE, rxedISYNC := true,
         cpu := { nonSecure := true } } : TRACEDecoder) 0x90 rfl
      (Or.inr (by decide)) (by omega)).2.2.2.2.2.1⟩

/-- C8: in the MTB protocol, a pair pumped in UNSYNCED seeds
`nextAddr = (dest & ~1) | (source & 1)`, raises TRACESTART iff dest bit 0 is
set, moves to IDLE and emits nothing; a pair pumped in IDLE raises EX_ENTRY
iff the previous `nextAddr` bit 0 was set, raises TRACESTART iff dest bit 0
is set, commits `addr = nextAddr & ~1`, updates `nextAddr`, sets
`toAddr = source & ~1` and `exception = 0`, raises ADDRESS and LINEAR, stays
in IDLE and emits one message. -/
theorem C8_mtb_pair_decode (i : TRACEDecoder) (source dest : Nat) :
    (i.p = .TRACE_UNSYNCED →
      (_MTBDecoderPumpAction i source dest).1.cpu.nextAddr =
        (dest &&& 0xFFFFFFFE) ||| (source &&& 1) ∧
      (_MTBDecoderPumpAction i source dest).1.p = TRACEprotoState.TRACE_IDLE ∧
      (_MTBDecoderPumpAction i source dest).2 = TRACEDecoderPumpEvent.TRACE_EV_NONE ∧
      (_MTBDecoderPumpAction i source dest).1.cpu.changeRecord =
        i.cpu.changeRecord |||
          (if dest &&& 1 ≠ 0 then 1 <<< EV_CH_TRACESTART else 0)) ∧
    (i.p = .TRACE_IDLE →
      (_MTBDecoderPumpAction i source dest).1.cpu.addr = i.cpu.nextAddr &&& 0xFFFFFFFE ∧
      (_MTBDecoderPumpAction i source dest).1.cpu.nextAddr =
        (dest &&& 0xFFFFFFFE) ||| (source &&& 1) ∧
      (_MTBDecoderPumpAction i source dest).1.cpu.toAddr = source &&& 0xFFFFFFFE ∧
      (_MTBDecoderPumpAction i source dest).1.cpu.exception = 0 ∧
      (_MTBDecoderPumpAction i source dest).1.p = TRACEprotoState.TRACE_IDLE ∧
      (_MTBDecoderPumpAction i source dest).2 = TRACEDecoderPumpEvent.TRACE_EV_MSG_RXED ∧
      (_MTBDecoderPumpAction i source dest).1.cpu.changeRecord =
        i.cpu.changeRecord
          ||| (if i.cpu.nextAddr &&& 1 ≠ 0 then 1 <<< EV_CH_EX_ENTRY else 0)
          ||| (if dest &&& 1 ≠ 0 then 1 <<< EV_CH_TRACESTART else 0)
          ||| (1 <<< EV_CH_ADDRESS) ||| (1 <<< EV_CH_LINEAR)) := by
  constructor
  · intro hp
    simp only [_MTBDecoderPumpAction, hp, _stateChange]
    by_cases hd : dest % 2 = 1 <;> simp [hd]
  · intro hp
    simp only [_MTBDecoderPumpAction, hp, _stateChange]
    by_cases he : i.cpu.nextAddr % 2 = 1 <;> by_cases hd : dest % 2 = 1 <;>
      simp [he, hd, hp]

/-- C8 witness: the MTB scenario of the spec, pair (1, 0x08000101) from
UNSYNCED followed by pair (0x08000200, 0x08000300) in IDLE. -/
theorem C8_mtb_pair_decode_witness :
    ((TRACEDecoderInit .TRACE_PROT_MTB false).p = TRACEprotoState.TRACE_UNSYNCED ∧
     ((_MTBDecoderPumpAction (TRACEDecoderInit .TRACE_PROT_MTB false) 1 0x08000101).1.cpu.nextAddr =
        ((0x08000101 : Nat) &&& 0xFFFFFFFE) ||| ((1 : Nat) &&& 1) ∧
      (_MTBDecoderPumpAction (TRACEDecoderInit .TRACE_PROT_MTB false) 1 0x08000101).1.p =
        TRACEprotoState.TRACE_IDLE ∧
      (_MTBDecoderPumpAction (TRACEDecoderInit .TRACE_PROT_MTB false) 1 0x08000101).2 =
        TRACEDecoderPumpEvent.TRACE_EV_NONE ∧
      (_MTBDecoderPumpAction (TRACEDecoderInit .TRACE_PROT_MTB false) 1 0x08000101).1.cpu.changeRecord =
        (TRACEDecoderInit .TRACE_PROT_MTB false).cpu.changeRecord |||
          (if (0x08000101 : Nat) &&& 1 ≠ 0 then 1 <<< EV_CH_TRACESTART else 0))) ∧
    ((_MTBDecoderPumpAction (TRACEDecoderInit .TRACE_PROT_MTB false) 1 0x08000101).1.p =
       TRACEprotoState.TRACE_IDLE ∧
     ((_MTBDecoderPumpAction
         (_MTBDecoderPumpAction (TRACEDecoderInit .TRACE_PROT_MTB false) 1 0x08000101).1
         0x08000200 0x08000300).1.cpu.addr =
        (_MTBDecoderPumpAction (TRACEDecoderInit .TRACE_PROT_MTB false) 1 0x08000101).1.cpu.nextAddr &&&
          0xFFFFFFFE ∧
      (_MTBDecoderPumpAction
         (_MTBDecoderPumpAction (TRACEDecoderInit .TRACE_PROT_MTB false) 1 0x08000101).1
         0x08000200 0x08000300).1.cpu.nextAddr =
        ((0x08000300 : Nat) &&& 0xFFFFFFFE) ||| ((0x08000200 : Nat) &&& 1) ∧
      (_MTBDecoderPumpAction
         (_MTBDecoderPumpAction (TRACEDecoderInit .TRACE_PROT_MTB false) 1 0x08000101).1
         0x08000200 0x08000300).1.cpu.toAddr = (0x08000200 : Nat) &&& 0xFFFFFFFE ∧
      (_MTBDecoderPumpAction
         (_MTBDecoderPumpAction (TRACEDecoderInit .TRACE_PROT_MTB false) 1 0x08000101).1
         0x08000200 0x08000300).1.cpu.exception = 0 ∧
      (_MTBDecoderPumpAction
         (_MTBDecoderPumpAction (TRACEDecoderInit .TRACE_PROT_MTB false) 1 0x08000101).1
         0x08000200 0x08000300).1.p = TRACEprotoState.TRACE_IDLE ∧
      (_MTBDecoderPumpAction
         (_MTBDecoderPumpAction (TRACEDecoderInit .TRACE_PROT_MTB false) 1 0x08000101).1
         0x08000200 0x08000300).2 = TRACEDecoderPumpEvent.TRACE_EV_MSG_RXED ∧
      (_MTBDecoderPumpAction
         (_MTBDecoderPumpAction (TRACEDecoderInit .TRACE_PROT_MTB false) 1 0x08000101).1
         0x08000200 0x08000300).1.cpu.changeRecord =
        (_MTBDecoderPumpAction (TRACEDecoderInit .TRACE_PROT_MTB false) 1 0x08000101).1.cpu.changeRecord
          ||| (if (_MTBDecoderPumpAction (TRACEDecoderInit .TRACE_PROT_MTB false) 1
                    0x08000101).1.cpu.nextAddr &&& 1 ≠ 0 then 1 <<< EV_CH_EX_ENTRY else 0)
          ||| (if (0x08000300 : Nat) &&& 1 ≠ 0 then 1 <<< EV_CH_TRACESTART else 0)
          ||| (1 <<< EV_CH_ADDRESS) ||| (1 <<< EV_CH_LINEAR))) :=
  ⟨⟨rfl,
    (C8_mtb_pair_decode (TRACEDecoderInit .TRACE_PROT_MTB false) 1 0x08000101).1 rfl⟩,
   ⟨by decide,
    (C8_mtb_pair_decode
       (_MTBDecoderPumpAction (TRACEDecoderInit .TRACE_PROT_MTB false) 1 0x08000101).1
       0x08000200 0x08000300).2 (by decide)⟩⟩

theorem terminateAddrByte_testBit (i : TRACEDecoder) (c : Nat) (C X : Bool)
    (st : TRACEprotoState) (k : Nat)
    (h : i.cpu.changeRecord.testBit k = true) :
    (terminateAddrByte i c C X st).1.cpu.changeRecord.testBit k = true := by
  simp only [terminateAddrByte, _stateChange]
  split_ifs <;> simp_all [Nat.testBit_or]

set_option maxHeartbeats 1000000 in
theorem _ETM35Idle_testBit (i : TRACEDecoder) (c k : Nat)
    (hr : i.rxedISYNC = true)
    (h : i.cpu.changeRecord.testBit k = true) :
    (_ETM35Idle i c).1.cpu.changeRecord.testBit k = true := by
  simp only [_ETM35Idle, _stateChange]
  by_cases h1 : c &&& 1 ≠ 0
  · rw [if_pos h1]
    exact terminateAddrByte_testBit _ _ _ _ _ _ (by simp [Nat.testBit_or, h])
  rw [if_neg h1]
  by_cases h2 : c = 0
  · rw [if_pos h2]
    exact h
  rw [if_neg h2]
  by_cases h3 : c = 0x04
  · rw [if_pos h3]
    exact h
  rw [if_neg h3]
  by_cases h4 : c = 0x08
  · rw [if_pos h4, if_neg (by simp [hr])]
    exact h
  rw [if_neg h4]
  by_cases h5 : c = 0x70
  · rw [if_pos h5]
    exact h
  rw [if_neg h5]
  by_cases h6 : c = 0x0C
  · rw [if_pos h6]
    simp [Nat.testBit_or, h]
  rw [if_neg h6]
  by_cases h7 : c = 0x3C
  · rw [if_pos h7]
    exact h
  rw [if_neg h7]
  by_cases h8 : c &&& 0xFB = 0x42
  · rw [if_pos h8]
    split_ifs <;> simp [Nat.testBit_or, h]
  rw [if_neg h8]
  by_cases h9 : c = 0x66
  · rw [if_pos h9]
    exact h
  rw [if_neg h9]
  by_cases h10 : c = 0x6E
  · rw [if_pos h10]
    exact h
  rw [if_neg h10]
  by_cases h11 : c = 0x76
  · rw [if_pos h11]
    simp [Nat.testBit_or, h]
  rw [if_neg h11]
  by_cases h12 : c = 0x7E
  · rw [if_pos h12]
    simp [Nat.testBit_or, h]
  rw [if_neg h12]
  by_cases h13 : c &&& 0x81 = 0x80
  · rw [if_pos h13]
    split_ifs <;> simp [Nat.testBit_or, h]
  rw [if_neg h13]
  exact h

theorem _ETM35CollectBAalt_testBit (i : TRACEDecoder) (c k : Nat)
    (h : i.cpu.changeRecord.testBit k = true) :
    (_ETM35CollectBAalt i c).1.cpu.changeRecord.testBit k = true := by
  simp only [_ETM35CollectBAalt]
  apply terminateAddrByte_testBit
  simp_all

theorem _ETM35CollectBAstd_testBit (i : TRACEDecoder) (c k : Nat)
    (h : i.cpu.changeRecord.testBit k = true) :
    (_ETM35CollectBAstd i c).1.cpu.changeRecord.testBit k = true := by
  simp only [_ETM35CollectBAstd]
  apply terminateAddrByte_testBit
  simp_all

theorem _ETM35CollectException_testBit (i : TRACEDecoder) (c k : Nat)
    (h : i.cpu.changeRecord.testBit k = true) :
    (_ETM35CollectException i c).1.cpu.changeRecord.testBit k = true := by
  simp only [_ETM35CollectException, _stateChange]
  split_ifs <;> simp_all [Nat.testBit_or]

theorem _ETM35GetVMID_testBit (i : TRACEDecoder) (c k : Nat)
    (h : i.cpu.changeRecord.testBit k = true) :
    (_ETM35GetVMID i c).1.cpu.changeRecord.testBit k = true := by
  simp only [_ETM35GetVMID, _stateChange]
  split_ifs <;> simp_all [Nat.testBit_or]

theorem _ETM35GetTstamp_testBit (i : TRACEDecoder) (c k : Nat)
    (h : i.cpu.changeRecord.testBit k = true) :
    (_ETM35GetTstamp i c).1.cpu.changeRecord.testBit k = true := by
  simp only [_ETM35GetTstamp, _stateChange]
  split_ifs <;> simp_all [Nat.testBit_or]

theorem _ETM35GetCyclecount_testBit (i : TRACEDecoder) (c k : Nat)
    (h : i.cpu.changeRecord.testBit k = true) :
    (_ETM35GetCyclecount i c).1.cpu.changeRecord.testBit k = true := by
  simp only [_ETM35GetCyclecount, _stateChange]
  split_ifs <;> simp_all [Nat.testBit_or]

theorem _ETM35GetContextID_testBit (i : TRACEDecoder) (c k : Nat)
    (h : i.cpu.changeRecord.testBit k = true) :
    (_ETM35GetContextID i c).1.cpu.changeRecord.testBit k = true := by
  simp only [_ETM35GetContextID, _stateChange]
  split_ifs <;> simp_all [Nat.testBit_or]

theorem _ETM35WaitISYNC_testBit (i : TRACEDecoder) (c k : Nat)
    (h : i.cpu.changeRecord.testBit k = true) :
    (_ETM35WaitISYNC i c).1.cpu.changeRecord.testBit k = true := by
  simp only [_ETM35WaitISYNC]
  split_ifs <;> simp_all

theorem _ETM35GetContextByte_testBit (i : TRACEDecoder) (c k : Nat)
    (h : i.cpu.changeRecord.testBit k = true) :
    (_ETM35GetContextByte i c).1.cpu.changeRecord.testBit k = true := by
  simp only [_ETM35GetContextByte, _stateChange]
  split_ifs <;> simp_all [Nat.testBit_or]

theorem _ETM35InfoLSiP_testBit (i : TRACEDecoder) (c k : Nat)
    (h : i.cpu.changeRecord.testBit k = true) :
    (_ETM35InfoLSiP i c).cpu.changeRecord.testBit k = true := by
  simp only [_ETM35InfoLSiP, _stateChange]
  split_ifs <;> simp_all [Nat.testBit_or]

theorem _ETM35InfoReason_testBit (i : TRACEDecoder) (c k : Nat)
    (h : i.cpu.changeRecord.testBit k = true) :
    (_ETM35InfoReason i c).cpu.changeRecord.testBit k = true := by
  simp only [_ETM35InfoReason, _stateChange]
  split_ifs <;> simp_all [Nat.testBit_or]

theorem _ETM35InfoJazelle_testBit (i : TRACEDecoder) (c k : Nat)
    (h : i.cpu.changeRecord.testBit k = true) :
    (_ETM35InfoJazelle i c).cpu.changeRecord.testBit k = true := by
  simp only [_ETM35InfoJazelle, _stateChange]
  split_ifs <;> simp_all [Nat.testBit_or]

theorem _ETM35InfoNonSecure_testBit (i : TRACEDecoder) (c k : Nat)
    (h : i.cpu.changeRecord.testBit k = true) :
    (_ETM35InfoNonSecure i c).cpu.changeRecord.testBit k = true := by
  simp only [_ETM35InfoNonSecure, _stateChange]
  split_ifs <;> simp_all [Nat.testBit_or]

theorem _ETM35InfoAltISA_testBit (i : TRACEDecoder) (c k : Nat)
    (h : i.cpu.changeRecord.testBit k = true) :
    (_ETM35InfoAltISA i c).cpu.changeRecord.testBit k = true := by
  simp only [_ETM35InfoAltISA, _stateChange]
  split_ifs <;> simp_all [Nat.testBit_or]

theorem _ETM35InfoHyp_testBit (i : TRACEDecoder) (c k : Nat)
    (h : i.cpu.changeRecord.testBit k = true) :
    (_ETM35InfoHyp i c).cpu.changeRecord.testBit k = true := by
  simp only [_ETM35InfoHyp, _stateChange]
  split_ifs <;> simp_all [Nat.testBit_or]

theorem _ETM35GetInfoByte_testBit (i : TRACEDecoder) (c k : Nat)
    (h : i.cpu.changeRecord.testBit k = true) :
    (_ETM35GetInfoByte i c).1.cpu.changeRecord.testBit k = true := by
  simp only [_ETM35GetInfoByte]
  simp only [apply_ite (@Prod.fst TRACEDecoder TRACEDecoderPumpEvent),
    apply_ite TRACEDecoder.cpu, ite_self]
  exact _ETM35InfoHyp_testBit _ _ _
    (_ETM35InfoAltISA_testBit _ _ _
      (_ETM35InfoNonSecure_testBit _ _ _
        (_ETM35InfoJazelle_testBit _ _ _
          (_ETM35InfoReason_testBit _ _ _
            (_ETM35InfoLSiP_testBit _ _ _ h)))))

set_option maxHeartbeats 1000000 in
theorem _ETM35GetIAddress_testBit (i : TRACEDecoder) (c k : Nat)
    (h : i.cpu.changeRecord.testBit k = true) :
    (_ETM35GetIAddress i c).1.cpu.changeRecord.testBit k = true := by
  simp only [_ETM35GetIAddress, _stateChange]
  by_cases hb : i.byteCount + 1 = 4
  · rw [if_pos hb]
    split_ifs <;> simp [Nat.testBit_or, h]
  · rw [if_neg hb]
    exact h

theorem _ETM35GetICyclecount_testBit (i : TRACEDecoder) (c k : Nat)
    (h : i.cpu.changeRecord.testBit k = true) :
    (_ETM35GetICyclecount i c).1.cpu.changeRecord.testBit k = true := by
  simp only [_ETM35GetICyclecount, _stateChange]
  split_ifs <;> simp_all [Nat.testBit_or]

theorem dispatch_testBit (i : TRACEDecoder) (c k : Nat)
    (hr : i.rxedISYNC = true)
    (h : i.cpu.changeRecord.testBit k = true) :
    (_ETM35Dispatch i c).1.cpu.changeRecord.testBit k = true := by
  rcases hp : i.p <;> simp only [_ETM35Dispatch, hp] <;>
    first
      | exact h
      | exact _ETM35Idle_testBit i c k hr h
      | exact _ETM35CollectBAalt_testBit i c k h
      | exact _ETM35CollectBAstd_testBit i c k h
      | exact _ETM35CollectException_testBit i c k h
      | exact _ETM35GetVMID_testBit i c k h
      | exact _ETM35GetTstamp_testBit i c k h
      | exact _ETM35GetCyclecount_testBit i c k h
      | exact _ETM35GetContextID_testBit i c k h
      | exact _ETM35WaitISYNC_testBit i c k h
      | exact _ETM35GetContextByte_testBit i c k h
      | exact _ETM35GetInfoByte_testBit i c k h
      | exact _ETM35GetIAddress_testBit i c k h
      | exact _ETM35GetICyclecount_testBit i c k h

/-- C5 (amended): once `rxedISYNC` is true, a set `changeRecord` bit survives
every further ETM35 pump step until the consumer polls it; MTB pump steps
never clear a set bit at all.  (The single decoder-internal clear is the first
valid I-Sync, received while `rxedISYNC` is false, which zeroes the whole
record — see the counterexample.) -/
theorem C5_amended_change_bits_sticky :
    (∀ (i : TRACEDecoder) (c k : Nat), i.rxedISYNC = true →
      i.cpu.changeRecord.testBit k = true →
      (_ETM35DecoderPumpAction i c).1.cpu.changeRecord.testBit k = true) ∧
    (∀ (i : TRACEDecoder) (source dest k : Nat),
      i.cpu.changeRecord.testBit k = true →
      (_MTBDecoderPumpAction i source dest).1.cpu.changeRecord.testBit k = true) := by
  constructor
  · intro i c k hr h
    unfold _ETM35DecoderPumpAction
    split_ifs with ha <;>
      first
        | exact h
        | exact dispatch_testBit _ c k hr h
  · intro i source dest k h
    rcases hp : i.p <;> simp only [_MTBDecoderPumpAction, hp, _stateChange] <;>
      try exact h
    · split_ifs <;> simp_all [Nat.testBit_or]
    · split_ifs <;> simp_all [Nat.testBit_or]

/-- C5 witness: a TRIGGER bit set after the first I-Sync survives a subsequent
I-Sync header byte (ETM35) and an MTB pair. -/
theorem C5_amended_change_bits_sticky_witness :
    (({ p := .TRACE_IDLE, rxedISYNC := true,
        cpu := { changeRecord := 1 <<< 20 } } : TRACEDecoder).rxedISYNC = true ∧
     ({ p := .TRACE_IDLE, rxedISYNC := true,
        cpu := { changeRecord := 1 <<< 20 } } : TRACEDecoder).cpu.changeRecord.testBit 20 = true) ∧
    (_ETM35DecoderPumpAction
       ({ p := .TRACE_IDLE, rxedISYNC := true,
          cpu := { changeRecord := 1 <<< 20 } } : TRACEDecoder) 0x08).1.cpu.changeRecord.testBit 20 = true ∧
    (_MTBDecoderPumpAction
       ({ p := .TRACE_IDLE, rxedISYNC := true,
          cpu := { changeRecord := 1 <<< 20 } } : TRACEDecoder) 0 0).1.cpu.changeRecord.testBit 20 = true :=
  ⟨⟨rfl, by decide⟩,
   C5_amended_change_bits_sticky.1
     ({ p := .TRACE_IDLE, rxedISYNC := true,
        cpu := { changeRecord := 1 <<< 20 } } : TRACEDecoder) 0x08 20 rfl (by decide),
   C5_amended_change_bits_sticky.2
     ({ p := .TRACE_IDLE, rxedISYNC := true,
        cpu := { changeRecord := 1 <<< 20 } } : TRACEDecoder) 0 0 20 (by decide)⟩
